import Mathlib

/-
Verification of the enum-bridge and borrowed-view core of a safe wrapper
layer over a native multimedia-codec library (rust-ffmpeg-next).

The embedding fixes one self-consistent compile-time feature configuration,
the one matching native library version 4.4:
  enabled : ffmpeg_4_0, ffmpeg_4_1, ffmpeg_4_2, ffmpeg_4_3, ffmpeg_4_4,
            ff_api_vaapi
  disabled: ff_api_xvmc, ff_api_vdpau, rpi
Every `#[cfg(...)]`-gated variant or match arm of the source is included
exactly when this configuration selects it.

Native C enumerations are embedded as inductive types with one constructor
per constant that the source matches on (the native types are closed Rust
enums in the ffi layer, so the matches are exhaustive over exactly these
constants).  Borrowed views are embedded as a pointer value together with
an explicit heap function mapping pointers to the pointed-to records.
-/

set_option maxHeartbeats 1000000

/-! ## Color primaries (`src/util/color/primaries.rs`) -/

/-- Native `AVColorPrimaries` constants matched by the source. -/
inductive AVColorPrimaries where
  | AVCOL_PRI_RESERVED0
  | AVCOL_PRI_BT709
  | AVCOL_PRI_UNSPECIFIED
  | AVCOL_PRI_RESERVED
  | AVCOL_PRI_BT470M
  | AVCOL_PRI_BT470BG
  | AVCOL_PRI_SMPTE170M
  | AVCOL_PRI_SMPTE240M
  | AVCOL_PRI_FILM
  | AVCOL_PRI_BT2020
  | AVCOL_PRI_NB
  | AVCOL_PRI_SMPTE428
  | AVCOL_PRI_SMPTE431
  | AVCOL_PRI_SMPTE432
  | AVCOL_PRI_EBU3213
  deriving DecidableEq, Repr

/-- The safe `Primaries` enumeration (feature `ffmpeg_4_3` selected, so the
last variant is `EBU3213`). -/
inductive Primaries where
  | Reserved0
  | BT709
  | Unspecified
  | Reserved
  | BT470M
  | BT470BG
  | SMPTE170M
  | SMPTE240M
  | Film
  | BT2020
  | SMPTE428
  | SMPTE431
  | SMPTE432
  | EBU3213
  deriving DecidableEq, Repr

/-- Forward conversion, from `impl From<AVColorPrimaries> for Primaries`. -/
def Primaries.fromNative : AVColorPrimaries → Primaries
  | .AVCOL_PRI_RESERVED0 => .Reserved0
  | .AVCOL_PRI_BT709 => .BT709
  | .AVCOL_PRI_UNSPECIFIED => .Unspecified
  | .AVCOL_PRI_RESERVED => .Reserved
  | .AVCOL_PRI_BT470M => .BT470M
  | .AVCOL_PRI_BT470BG => .BT470BG
  | .AVCOL_PRI_SMPTE170M => .SMPTE170M
  | .AVCOL_PRI_SMPTE240M => .SMPTE240M
  | .AVCOL_PRI_FILM => .Film
  | .AVCOL_PRI_BT2020 => .BT2020
  | .AVCOL_PRI_NB => .Reserved0
  | .AVCOL_PRI_SMPTE428 => .SMPTE428
  | .AVCOL_PRI_SMPTE431 => .SMPTE431
  | .AVCOL_PRI_SMPTE432 => .SMPTE432
  | .AVCOL_PRI_EBU3213 => .EBU3213

/-- Reverse conversion, from `impl From<Primaries> for AVColorPrimaries`. -/
def Primaries.toNative : Primaries → AVColorPrimaries
  | .Reserved0 => .AVCOL_PRI_RESERVED0
  | .BT709 => .AVCOL_PRI_BT709
  | .Unspecified => .AVCOL_PRI_UNSPECIFIED
  | .Reserved => .AVCOL_PRI_RESERVED
  | .BT470M => .AVCOL_PRI_BT470M
  | .BT470BG => .AVCOL_PRI_BT470BG
  | .SMPTE170M => .AVCOL_PRI_SMPTE170M
  | .SMPTE240M => .AVCOL_PRI_SMPTE240M
  | .Film => .AVCOL_PRI_FILM
  | .BT2020 => .AVCOL_PRI_BT2020
  | .SMPTE428 => .AVCOL_PRI_SMPTE428
  | .SMPTE431 => .AVCOL_PRI_SMPTE431
  | .SMPTE432 => .AVCOL_PRI_SMPTE432
  | .EBU3213 => .AVCOL_PRI_EBU3213

/-- `Primaries::name`, parametrized by the native lookup function
`av_color_primaries_name` (a null return is `none`). -/
def Primaries.name (lookup : AVColorPrimaries → Option String)
    (p : Primaries) : Option String :=
  if p = Primaries.Unspecified then none else lookup p.toNative

/-! ## Color range (`src/util/color/range.rs`) -/

/-- Native `AVColorRange` constants matched by the source. -/
inductive AVColorRange where
  | AVCOL_RANGE_UNSPECIFIED
  | AVCOL_RANGE_MPEG
  | AVCOL_RANGE_JPEG
  | AVCOL_RANGE_NB
  deriving DecidableEq, Repr

/-- The safe `Range` enumeration. -/
inductive Range where
  | Unspecified
  | MPEG
  | JPEG
  deriving DecidableEq, Repr

/-- Forward conversion, from `impl From<AVColorRange> for Range`. -/
def Range.fromNative : AVColorRange → Range
  | .AVCOL_RANGE_UNSPECIFIED => .Unspecified
  | .AVCOL_RANGE_MPEG => .MPEG
  | .AVCOL_RANGE_JPEG => .JPEG
  | .AVCOL_RANGE_NB => .Unspecified

/-- Reverse conversion, from `impl From<Range> for AVColorRange`. -/
def Range.toNative : Range → AVColorRange
  | .Unspecified => .AVCOL_RANGE_UNSPECIFIED
  | .MPEG => .AVCOL_RANGE_MPEG
  | .JPEG => .AVCOL_RANGE_JPEG

/-- `Range::name`, parametrized by the native lookup `av_color_range_name`. -/
def Range.name (lookup : AVColorRange → Option String)
    (r : Range) : Option String :=
  if r = Range.Unspecified then none else lookup r.toNative

/-! ## Color space (`src/util/color/space.rs`) -/

/-- Native `AVColorSpace` constants matched by the source. -/
inductive AVColorSpace where
  | AVCOL_SPC_RGB
  | AVCOL_SPC_BT709
  | AVCOL_SPC_UNSPECIFIED
  | AVCOL_SPC_RESERVED
  | AVCOL_SPC_FCC
  | AVCOL_SPC_BT470BG
  | AVCOL_SPC_SMPTE170M
  | AVCOL_SPC_SMPTE240M
  | AVCOL_SPC_YCGCO
  | AVCOL_SPC_BT2020_NCL
  | AVCOL_SPC_BT2020_CL
  | AVCOL_SPC_SMPTE2085
  | AVCOL_SPC_NB
  | AVCOL_SPC_CHROMA_DERIVED_NCL
  | AVCOL_SPC_CHROMA_DERIVED_CL
  | AVCOL_SPC_ICTCP
  deriving DecidableEq, Repr

/-- The safe `Space` enumeration. -/
inductive Space where
  | RGB
  | BT709
  | Unspecified
  | Reserved
  | FCC
  | BT470BG
  | SMPTE170M
  | SMPTE240M
  | YCGCO
  | BT2020NCL
  | BT2020CL
  | SMPTE2085
  | ChromaDerivedNCL
  | ChromaDerivedCL
  | ICTCP
  deriving DecidableEq, Repr

/-- Forward conversion, from `impl From<AVColorSpace> for Space`. -/
def Space.fromNative : AVColorSpace → Space
  | .AVCOL_SPC_RGB => .RGB
  | .AVCOL_SPC_BT709 => .BT709
  | .AVCOL_SPC_UNSPECIFIED => .Unspecified
  | .AVCOL_SPC_RESERVED => .Reserved
  | .AVCOL_SPC_FCC => .FCC
  | .AVCOL_SPC_BT470BG => .BT470BG
  | .AVCOL_SPC_SMPTE170M => .SMPTE170M
  | .AVCOL_SPC_SMPTE240M => .SMPTE240M
  | .AVCOL_SPC_YCGCO => .YCGCO
  | .AVCOL_SPC_BT2020_NCL => .BT2020NCL
  | .AVCOL_SPC_BT2020_CL => .BT2020CL
  | .AVCOL_SPC_SMPTE2085 => .SMPTE2085
  | .AVCOL_SPC_NB => .Unspecified
  | .AVCOL_SPC_CHROMA_DERIVED_NCL => .ChromaDerivedNCL
  | .AVCOL_SPC_CHROMA_DERIVED_CL => .ChromaDerivedCL
  | .AVCOL_SPC_ICTCP => .ICTCP

/-- Reverse conversion, from `impl From<Space> for AVColorSpace`. -/
def Space.toNative : Space → AVColorSpace
  | .RGB => .AVCOL_SPC_RGB
  | .BT709 => .AVCOL_SPC_BT709
  | .Unspecified => .AVCOL_SPC_UNSPECIFIED
  | .Reserved => .AVCOL_SPC_RESERVED
  | .FCC => .AVCOL_SPC_FCC
  | .BT470BG => .AVCOL_SPC_BT470BG
  | .SMPTE170M => .AVCOL_SPC_SMPTE170M
  | .SMPTE240M => .AVCOL_SPC_SMPTE240M
  | .YCGCO => .AVCOL_SPC_YCGCO
  | .BT2020NCL => .AVCOL_SPC_BT2020_NCL
  | .BT2020CL => .AVCOL_SPC_BT2020_CL
  | .SMPTE2085 => .AVCOL_SPC_SMPTE2085
  | .ChromaDerivedNCL => .AVCOL_SPC_CHROMA_DERIVED_NCL
  | .ChromaDerivedCL => .AVCOL_SPC_CHROMA_DERIVED_CL
  | .ICTCP => .AVCOL_SPC_ICTCP

/-- `Space::name`, parametrized by the native lookup `av_color_space_name`. -/
def Space.name (lookup : AVColorSpace → Option String)
    (s : Space) : Option String :=
  if s = Space.Unspecified then none else lookup s.toNative

/-! ## Transfer characteristic (`src/util/color/transfer_characteristic.rs`) -/

/-- Native `AVColorTransferCharacteristic` constants matched by the source. -/
inductive AVColorTransferCharacteristic where
  | AVCOL_TRC_RESERVED0
  | AVCOL_TRC_BT709
  | AVCOL_TRC_UNSPECIFIED
  | AVCOL_TRC_RESERVED
  | AVCOL_TRC_GAMMA22
  | AVCOL_TRC_GAMMA28
  | AVCOL_TRC_SMPTE170M
  | AVCOL_TRC_SMPTE240M
  | AVCOL_TRC_LINEAR
  | AVCOL_TRC_LOG
  | AVCOL_TRC_LOG_SQRT
  | AVCOL_TRC_IEC61966_2_4
  | AVCOL_TRC_BT1361_ECG
  | AVCOL_TRC_IEC61966_2_1
  | AVCOL_TRC_BT2020_10
  | AVCOL_TRC_BT2020_12
  | AVCOL_TRC_NB
  | AVCOL_TRC_SMPTE2084
  | AVCOL_TRC_SMPTE428
  | AVCOL_TRC_ARIB_STD_B67
  deriving DecidableEq, Repr

/-- The safe `TransferCharacteristic` enumeration. -/
inductive TransferCharacteristic where
  | Reserved0
  | BT709
  | Unspecified
  | Reserved
  | GAMMA22
  | GAMMA28
  | SMPTE170M
  | SMPTE240M
  | Linear
  | Log
  | LogSqrt
  | IEC61966_2_4
  | BT1361_ECG
  | IEC61966_2_1
  | BT2020_10
  | BT2020_12
  | SMPTE2084
  | SMPTE428
  | ARIB_STD_B67
  deriving DecidableEq, Repr

/-- Forward conversion, from
`impl From<AVColorTransferCharacteristic> for TransferCharacteristic`. -/
def TransferCharacteristic.fromNative :
    AVColorTransferCharacteristic → TransferCharacteristic
  | .AVCOL_TRC_RESERVED0 => .Reserved0
  | .AVCOL_TRC_BT709 => .BT709
  | .AVCOL_TRC_UNSPECIFIED => .Unspecified
  | .AVCOL_TRC_RESERVED => .Reserved
  | .AVCOL_TRC_GAMMA22 => .GAMMA22
  | .AVCOL_TRC_GAMMA28 => .GAMMA28
  | .AVCOL_TRC_SMPTE170M => .SMPTE170M
  | .AVCOL_TRC_SMPTE240M => .SMPTE240M
  | .AVCOL_TRC_LINEAR => .Linear
  | .AVCOL_TRC_LOG => .Log
  | .AVCOL_TRC_LOG_SQRT => .LogSqrt
  | .AVCOL_TRC_IEC61966_2_4 => .IEC61966_2_4
  | .AVCOL_TRC_BT1361_ECG => .BT1361_ECG
  | .AVCOL_TRC_IEC61966_2_1 => .IEC61966_2_1
  | .AVCOL_TRC_BT2020_10 => .BT2020_10
  | .AVCOL_TRC_BT2020_12 => .BT2020_12
  | .AVCOL_TRC_NB => .Reserved0
  | .AVCOL_TRC_SMPTE2084 => .SMPTE2084
  | .AVCOL_TRC_SMPTE428 => .SMPTE428
  | .AVCOL_TRC_ARIB_STD_B67 => .ARIB_STD_B67

/-- Reverse conversion, from
`impl From<TransferCharacteristic> for AVColorTransferCharacteristic`. -/
def TransferCharacteristic.toNative :
    TransferCharacteristic → AVColorTransferCharacteristic
  | .Reserved0 => .AVCOL_TRC_RESERVED0
  | .BT709 => .AVCOL_TRC_BT709
  | .Unspecified => .AVCOL_TRC_UNSPECIFIED
  | .Reserved => .AVCOL_TRC_RESERVED
  | .GAMMA22 => .AVCOL_TRC_GAMMA22
  | .GAMMA28 => .AVCOL_TRC_GAMMA28
  | .SMPTE170M => .AVCOL_TRC_SMPTE170M
  | .SMPTE240M => .AVCOL_TRC_SMPTE240M
  | .Linear => .AVCOL_TRC_LINEAR
  | .Log => .AVCOL_TRC_LOG
  | .LogSqrt => .AVCOL_TRC_LOG_SQRT
  | .IEC61966_2_4 => .AVCOL_TRC_IEC61966_2_4
  | .BT1361_ECG => .AVCOL_TRC_BT1361_ECG
  | .IEC61966_2_1 => .AVCOL_TRC_IEC61966_2_1
  | .BT2020_10 => .AVCOL_TRC_BT2020_10
  | .BT2020_12 => .AVCOL_TRC_BT2020_12
  | .SMPTE2084 => .AVCOL_TRC_SMPTE2084
  | .SMPTE428 => .AVCOL_TRC_SMPTE428
  | .ARIB_STD_B67 => .AVCOL_TRC_ARIB_STD_B67

/-- `TransferCharacteristic::name`, parametrized by the native lookup
`av_color_transfer_name`. -/
def TransferCharacteristic.name
    (lookup : AVColorTransferCharacteristic → Option String)
    (t : TransferCharacteristic) : Option String :=
  if t = TransferCharacteristic.Unspecified then none else lookup t.toNative

/-! ## Rounding mode (`src/util/mathematics/rounding.rs`) -/

/-- Native `AVRounding` constants matched by the source. -/
inductive AVRounding where
  | AV_ROUND_ZERO
  | AV_ROUND_INF
  | AV_ROUND_DOWN
  | AV_ROUND_UP
  | AV_ROUND_NEAR_INF
  | AV_ROUND_PASS_MINMAX
  deriving DecidableEq, Repr

/-- The safe `Rounding` enumeration. -/
inductive Rounding where
  | Zero
  | Infinity
  | Down
  | Up
  | NearInfinity
  | PassMinMax
  deriving DecidableEq, Repr

/-- Forward conversion, from `impl From<AVRounding> for Rounding`. -/
def Rounding.fromNative : AVRounding → Rounding
  | .AV_ROUND_ZERO => .Zero
  | .AV_ROUND_INF => .Infinity
  | .AV_ROUND_DOWN => .Down
  | .AV_ROUND_UP => .Up
  | .AV_ROUND_NEAR_INF => .NearInfinity
  | .AV_ROUND_PASS_MINMAX => .PassMinMax

/-- Reverse conversion, from `impl From<Rounding> for AVRounding`. -/
def Rounding.toNative : Rounding → AVRounding
  | .Zero => .AV_ROUND_ZERO
  | .Infinity => .AV_ROUND_INF
  | .Down => .AV_ROUND_DOWN
  | .Up => .AV_ROUND_UP
  | .NearInfinity => .AV_ROUND_NEAR_INF
  | .PassMinMax => .AV_ROUND_PASS_MINMAX

/-! ## Macroblock decision (`src/codec/encoder/decision.rs`)

This conversion takes a raw `c_int`, not a closed native enum; the native
constants are `FF_MB_DECISION_SIMPLE = 0`, `FF_MB_DECISION_BITS = 1`,
`FF_MB_DECISION_RD = 2` (native ABI values, per the ABI contract of the
spec). -/

/-- Native constant `FF_MB_DECISION_SIMPLE`. -/
def FF_MB_DECISION_SIMPLE : Int := 0

/-- Native constant `FF_MB_DECISION_BITS`. -/
def FF_MB_DECISION_BITS : Int := 1

/-- Native constant `FF_MB_DECISION_RD`. -/
def FF_MB_DECISION_RD : Int := 2

/-- The safe `Decision` enumeration. -/
inductive Decision where
  | Simple
  | Bits
  | RateDistortion
  deriving DecidableEq, Repr

/-- Forward conversion, from `impl From<c_int> for Decision`: a match with
a wildcard arm falling back to `Decision::Simple`. -/
def Decision.fromNative (value : Int) : Decision :=
  if value = FF_MB_DECISION_SIMPLE then .Simple
  else if value = FF_MB_DECISION_BITS then .Bits
  else if value = FF_MB_DECISION_RD then .RateDistortion
  else .Simple

/-- Reverse conversion, from `impl From<Decision> for c_int`. -/
def Decision.toNative : Decision → Int
  | .Simple => FF_MB_DECISION_SIMPLE
  | .Bits => FF_MB_DECISION_BITS
  | .RateDistortion => FF_MB_DECISION_RD

/-! ## Option type (`src/util/option/mod.rs`) -/

/-- Native `AVOptionType` constants matched by the source. -/
inductive AVOptionType where
  | AV_OPT_TYPE_FLAGS
  | AV_OPT_TYPE_INT
  | AV_OPT_TYPE_INT64
  | AV_OPT_TYPE_DOUBLE
  | AV_OPT_TYPE_FLOAT
  | AV_OPT_TYPE_STRING
  | AV_OPT_TYPE_RATIONAL
  | AV_OPT_TYPE_BINARY
  | AV_OPT_TYPE_DICT
  | AV_OPT_TYPE_CONST
  | AV_OPT_TYPE_UINT64
  | AV_OPT_TYPE_BOOL
  | AV_OPT_TYPE_IMAGE_SIZE
  | AV_OPT_TYPE_PIXEL_FMT
  | AV_OPT_TYPE_SAMPLE_FMT
  | AV_OPT_TYPE_VIDEO_RATE
  | AV_OPT_TYPE_DURATION
  | AV_OPT_TYPE_COLOR
  | AV_OPT_TYPE_CHANNEL_LAYOUT
  deriving DecidableEq, Repr

/-- The safe option `Type` enumeration of `util/option/mod.rs` (named
`OptionType` here because `Type` is not available as a Lean name). -/
inductive OptionType where
  | Flags
  | Int
  | Int64
  | Double
  | Float
  | String
  | Rational
  | Binary
  | Dictionary
  | Constant
  | ImageSize
  | PixelFormat
  | SampleFormat
  | VideoRate
  | Duration
  | Color
  | ChannelLayout
  | c_ulong
  | bool
  deriving DecidableEq, Repr

/-- Forward conversion, from `impl From<AVOptionType> for Type`. -/
def OptionType.fromNative : AVOptionType → OptionType
  | .AV_OPT_TYPE_FLAGS => .Flags
  | .AV_OPT_TYPE_INT => .Int
  | .AV_OPT_TYPE_INT64 => .Int64
  | .AV_OPT_TYPE_DOUBLE => .Double
  | .AV_OPT_TYPE_FLOAT => .Float
  | .AV_OPT_TYPE_STRING => .String
  | .AV_OPT_TYPE_RATIONAL => .Rational
  | .AV_OPT_TYPE_BINARY => .Binary
  | .AV_OPT_TYPE_DICT => .Dictionary
  | .AV_OPT_TYPE_CONST => .Constant
  | .AV_OPT_TYPE_UINT64 => .c_ulong
  | .AV_OPT_TYPE_BOOL => .bool
  | .AV_OPT_TYPE_IMAGE_SIZE => .ImageSize
  | .AV_OPT_TYPE_PIXEL_FMT => .PixelFormat
  | .AV_OPT_TYPE_SAMPLE_FMT => .SampleFormat
  | .AV_OPT_TYPE_VIDEO_RATE => .VideoRate
  | .AV_OPT_TYPE_DURATION => .Duration
  | .AV_OPT_TYPE_COLOR => .Color
  | .AV_OPT_TYPE_CHANNEL_LAYOUT => .ChannelLayout

/-- Reverse conversion, from `impl From<Type> for AVOptionType`. -/
def OptionType.toNative : OptionType → AVOptionType
  | .Flags => .AV_OPT_TYPE_FLAGS
  | .Int => .AV_OPT_TYPE_INT
  | .Int64 => .AV_OPT_TYPE_INT64
  | .Double => .AV_OPT_TYPE_DOUBLE
  | .Float => .AV_OPT_TYPE_FLOAT
  | .String => .AV_OPT_TYPE_STRING
  | .Rational => .AV_OPT_TYPE_RATIONAL
  | .Binary => .AV_OPT_TYPE_BINARY
  | .Dictionary => .AV_OPT_TYPE_DICT
  | .Constant => .AV_OPT_TYPE_CONST
  | .c_ulong => .AV_OPT_TYPE_UINT64
  | .bool => .AV_OPT_TYPE_BOOL
  | .ImageSize => .AV_OPT_TYPE_IMAGE_SIZE
  | .PixelFormat => .AV_OPT_TYPE_PIXEL_FMT
  | .SampleFormat => .AV_OPT_TYPE_SAMPLE_FMT
  | .VideoRate => .AV_OPT_TYPE_VIDEO_RATE
  | .Duration => .AV_OPT_TYPE_DURATION
  | .Color => .AV_OPT_TYPE_COLOR
  | .ChannelLayout => .AV_OPT_TYPE_CHANNEL_LAYOUT

/-! ## Packet side-data type (`src/codec/packet/side_data.rs`) -/

/-- Native `AVPacketSideDataType` constants matched by the source under the
fixed feature configuration. -/
inductive AVPacketSideDataType where
  | AV_PKT_DATA_PALETTE
  | AV_PKT_DATA_NEW_EXTRADATA
  | AV_PKT_DATA_PARAM_CHANGE
  | AV_PKT_DATA_H263_MB_INFO
  | AV_PKT_DATA_REPLAYGAIN
  | AV_PKT_DATA_DISPLAYMATRIX
  | AV_PKT_DATA_STEREO3D
  | AV_PKT_DATA_AUDIO_SERVICE_TYPE
  | AV_PKT_DATA_QUALITY_STATS
  | AV_PKT_DATA_FALLBACK_TRACK
  | AV_PKT_DATA_CPB_PROPERTIES
  | AV_PKT_DATA_SKIP_SAMPLES
  | AV_PKT_DATA_JP_DUALMONO
  | AV_PKT_DATA_STRINGS_METADATA
  | AV_PKT_DATA_SUBTITLE_POSITION
  | AV_PKT_DATA_MATROSKA_BLOCKADDITIONAL
  | AV_PKT_DATA_WEBVTT_IDENTIFIER
  | AV_PKT_DATA_WEBVTT_SETTINGS
  | AV_PKT_DATA_METADATA_UPDATE
  | AV_PKT_DATA_MPEGTS_STREAM_ID
  | AV_PKT_DATA_MASTERING_DISPLAY_METADATA
  | AV_PKT_DATA_SPHERICAL
  | AV_PKT_DATA_NB
  | AV_PKT_DATA_CONTENT_LIGHT_LEVEL
  | AV_PKT_DATA_A53_CC
  | AV_PKT_DATA_ENCRYPTION_INIT_INFO
  | AV_PKT_DATA_ENCRYPTION_INFO
  | AV_PKT_DATA_AFD
  | AV_PKT_DATA_PRFT
  | AV_PKT_DATA_ICC_PROFILE
  | AV_PKT_DATA_DOVI_CONF
  | AV_PKT_DATA_S12M_TIMECODE
  deriving DecidableEq, Repr

/-- The safe packet side-data `Type` enumeration of
`codec/packet/side_data.rs` (named `PacketSideDataType` here because `Type`
is not available as a Lean name). -/
inductive PacketSideDataType where
  | Palette
  | NewExtraData
  | ParamChange
  | H263MbInfo
  | ReplayGain
  | DisplayMatrix
  | Stereo3d
  | AudioServiceType
  | QualityStats
  | FallbackTrack
  | CBPProperties
  | SkipSamples
  | JpDualMono
  | StringsMetadata
  | SubtitlePosition
  | MatroskaBlockAdditional
  | WebVTTIdentifier
  | WebVTTSettings
  | MetadataUpdate
  | MPEGTSStreamID
  | MasteringDisplayMetadata
  | DataSpherical
  | DataNb
  | ContentLightLevel
  | A53CC
  | EncryptionInitInfo
  | EncryptionInfo
  | AFD
  | PRFT
  | ICC_PROFILE
  | DOVI_CONF
  | S12M_TIMECODE
  deriving DecidableEq, Repr

/-- Forward conversion, from `impl From<AVPacketSideDataType> for Type`. -/
def PacketSideDataType.fromNative : AVPacketSideDataType → PacketSideDataType
  | .AV_PKT_DATA_PALETTE => .Palette
  | .AV_PKT_DATA_NEW_EXTRADATA => .NewExtraData
  | .AV_PKT_DATA_PARAM_CHANGE => .ParamChange
  | .AV_PKT_DATA_H263_MB_INFO => .H263MbInfo
  | .AV_PKT_DATA_REPLAYGAIN => .ReplayGain
  | .AV_PKT_DATA_DISPLAYMATRIX => .DisplayMatrix
  | .AV_PKT_DATA_STEREO3D => .Stereo3d
  | .AV_PKT_DATA_AUDIO_SERVICE_TYPE => .AudioServiceType
  | .AV_PKT_DATA_QUALITY_STATS => .QualityStats
  | .AV_PKT_DATA_FALLBACK_TRACK => .FallbackTrack
  | .AV_PKT_DATA_CPB_PROPERTIES => .CBPProperties
  | .AV_PKT_DATA_SKIP_SAMPLES => .SkipSamples
  | .AV_PKT_DATA_JP_DUALMONO => .JpDualMono
  | .AV_PKT_DATA_STRINGS_METADATA => .StringsMetadata
  | .AV_PKT_DATA_SUBTITLE_POSITION => .SubtitlePosition
  | .AV_PKT_DATA_MATROSKA_BLOCKADDITIONAL => .MatroskaBlockAdditional
  | .AV_PKT_DATA_WEBVTT_IDENTIFIER => .WebVTTIdentifier
  | .AV_PKT_DATA_WEBVTT_SETTINGS => .WebVTTSettings
  | .AV_PKT_DATA_METADATA_UPDATE => .MetadataUpdate
  | .AV_PKT_DATA_MPEGTS_STREAM_ID => .MPEGTSStreamID
  | .AV_PKT_DATA_MASTERING_DISPLAY_METADATA => .MasteringDisplayMetadata
  | .AV_PKT_DATA_SPHERICAL => .DataSpherical
  | .AV_PKT_DATA_NB => .DataNb
  | .AV_PKT_DATA_CONTENT_LIGHT_LEVEL => .ContentLightLevel
  | .AV_PKT_DATA_A53_CC => .A53CC
  | .AV_PKT_DATA_ENCRYPTION_INIT_INFO => .EncryptionInitInfo
  | .AV_PKT_DATA_ENCRYPTION_INFO => .EncryptionInfo
  | .AV_PKT_DATA_AFD => .AFD
  | .AV_PKT_DATA_PRFT => .PRFT
  | .AV_PKT_DATA_ICC_PROFILE => .ICC_PROFILE
  | .AV_PKT_DATA_DOVI_CONF => .DOVI_CONF
  | .AV_PKT_DATA_S12M_TIMECODE => .S12M_TIMECODE

/-- Reverse conversion, from `impl From<Type> for AVPacketSideDataType`. -/
def PacketSideDataType.toNative : PacketSideDataType → AVPacketSideDataType
  | .Palette => .AV_PKT_DATA_PALETTE
  | .NewExtraData => .AV_PKT_DATA_NEW_EXTRADATA
  | .ParamChange => .AV_PKT_DATA_PARAM_CHANGE
  | .H263MbInfo => .AV_PKT_DATA_H263_MB_INFO
  | .ReplayGain => .AV_PKT_DATA_REPLAYGAIN
  | .DisplayMatrix => .AV_PKT_DATA_DISPLAYMATRIX
  | .Stereo3d => .AV_PKT_DATA_STEREO3D
  | .AudioServiceType => .AV_PKT_DATA_AUDIO_SERVICE_TYPE
  | .QualityStats => .AV_PKT_DATA_QUALITY_STATS
  | .FallbackTrack => .AV_PKT_DATA_FALLBACK_TRACK
  | .CBPProperties => .AV_PKT_DATA_CPB_PROPERTIES
  | .SkipSamples => .AV_PKT_DATA_SKIP_SAMPLES
  | .JpDualMono => .AV_PKT_DATA_JP_DUALMONO
  | .StringsMetadata => .AV_PKT_DATA_STRINGS_METADATA
  | .SubtitlePosition => .AV_PKT_DATA_SUBTITLE_POSITION
  | .MatroskaBlockAdditional => .AV_PKT_DATA_MATROSKA_BLOCKADDITIONAL
  | .WebVTTIdentifier => .AV_PKT_DATA_WEBVTT_IDENTIFIER
  | .WebVTTSettings => .AV_PKT_DATA_WEBVTT_SETTINGS
  | .MetadataUpdate => .AV_PKT_DATA_METADATA_UPDATE
  | .MPEGTSStreamID => .AV_PKT_DATA_MPEGTS_STREAM_ID
  | .MasteringDisplayMetadata => .AV_PKT_DATA_MASTERING_DISPLAY_METADATA
  | .DataSpherical => .AV_PKT_DATA_SPHERICAL
  | .DataNb => .AV_PKT_DATA_NB
  | .ContentLightLevel => .AV_PKT_DATA_CONTENT_LIGHT_LEVEL
  | .A53CC => .AV_PKT_DATA_A53_CC
  | .EncryptionInitInfo => .AV_PKT_DATA_ENCRYPTION_INIT_INFO
  | .EncryptionInfo => .AV_PKT_DATA_ENCRYPTION_INFO
  | .AFD => .AV_PKT_DATA_AFD
  | .PRFT => .AV_PKT_DATA_PRFT
  | .ICC_PROFILE => .AV_PKT_DATA_ICC_PROFILE
  | .DOVI_CONF => .AV_PKT_DATA_DOVI_CONF
  | .S12M_TIMECODE => .AV_PKT_DATA_S12M_TIMECODE

/-! ## Frame side-data type (`src/util/frame/side_data.rs`) -/

/-- Native `AVFrameSideDataType` constants matched by the source under the
fixed feature configuration. -/
inductive AVFrameSideDataType where
  | AV_FRAME_DATA_PANSCAN
  | AV_FRAME_DATA_A53_CC
  | AV_FRAME_DATA_STEREO3D
  | AV_FRAME_DATA_MATRIXENCODING
  | AV_FRAME_DATA_DOWNMIX_INFO
  | AV_FRAME_DATA_REPLAYGAIN
  | AV_FRAME_DATA_DISPLAYMATRIX
  | AV_FRAME_DATA_AFD
  | AV_FRAME_DATA_MOTION_VECTORS
  | AV_FRAME_DATA_SKIP_SAMPLES
  | AV_FRAME_DATA_AUDIO_SERVICE_TYPE
  | AV_FRAME_DATA_MASTERING_DISPLAY_METADATA
  | AV_FRAME_DATA_GOP_TIMECODE
  | AV_FRAME_DATA_SPHERICAL
  | AV_FRAME_DATA_CONTENT_LIGHT_LEVEL
  | AV_FRAME_DATA_ICC_PROFILE
  | AV_FRAME_DATA_QP_TABLE_PROPERTIES
  | AV_FRAME_DATA_QP_TABLE_DATA
  | AV_FRAME_DATA_S12M_TIMECODE
  | AV_FRAME_DATA_DYNAMIC_HDR_PLUS
  | AV_FRAME_DATA_REGIONS_OF_INTEREST
  | AV_FRAME_DATA_VIDEO_ENC_PARAMS
  | AV_FRAME_DATA_SEI_UNREGISTERED
  | AV_FRAME_DATA_FILM_GRAIN_PARAMS
  deriving DecidableEq, Repr

/-- The safe frame side-data `Type` enumeration of
`util/frame/side_data.rs` (named `FrameSideDataType` here because `Type`
is not available as a Lean name). -/
inductive FrameSideDataType where
  | PanScan
  | A53CC
  | Stereo3D
  | MatrixEncoding
  | DownMixInfo
  | ReplayGain
  | DisplayMatrix
  | AFD
  | MotionVectors
  | SkipSamples
  | AudioServiceType
  | MasteringDisplayMetadata
  | GOPTimecode
  | Spherical
  | ContentLightLevel
  | IccProfile
  | QPTableProperties
  | QPTableData
  | S12M_TIMECODE
  | DYNAMIC_HDR_PLUS
  | REGIONS_OF_INTEREST
  | VIDEO_ENC_PARAMS
  | SEI_UNREGISTERED
  | FILM_GRAIN_PARAMS
  deriving DecidableEq, Repr

/-- Forward conversion, from `impl From<AVFrameSideDataType> for Type`. -/
def FrameSideDataType.fromNative : AVFrameSideDataType → FrameSideDataType
  | .AV_FRAME_DATA_PANSCAN => .PanScan
  | .AV_FRAME_DATA_A53_CC => .A53CC
  | .AV_FRAME_DATA_STEREO3D => .Stereo3D
  | .AV_FRAME_DATA_MATRIXENCODING => .MatrixEncoding
  | .AV_FRAME_DATA_DOWNMIX_INFO => .DownMixInfo
  | .AV_FRAME_DATA_REPLAYGAIN => .ReplayGain
  | .AV_FRAME_DATA_DISPLAYMATRIX => .DisplayMatrix
  | .AV_FRAME_DATA_AFD => .AFD
  | .AV_FRAME_DATA_MOTION_VECTORS => .MotionVectors
  | .AV_FRAME_DATA_SKIP_SAMPLES => .SkipSamples
  | .AV_FRAME_DATA_AUDIO_SERVICE_TYPE => .AudioServiceType
  | .AV_FRAME_DATA_MASTERING_DISPLAY_METADATA => .MasteringDisplayMetadata
  | .AV_FRAME_DATA_GOP_TIMECODE => .GOPTimecode
  | .AV_FRAME_DATA_SPHERICAL => .Spherical
  | .AV_FRAME_DATA_CONTENT_LIGHT_LEVEL => .ContentLightLevel
  | .AV_FRAME_DATA_ICC_PROFILE => .IccProfile
  | .AV_FRAME_DATA_QP_TABLE_PROPERTIES => .QPTableProperties
  | .AV_FRAME_DATA_QP_TABLE_DATA => .QPTableData
  | .AV_FRAME_DATA_S12M_TIMECODE => .S12M_TIMECODE
  | .AV_FRAME_DATA_DYNAMIC_HDR_PLUS => .DYNAMIC_HDR_PLUS
  | .AV_FRAME_DATA_REGIONS_OF_INTEREST => .REGIONS_OF_INTEREST
  | .AV_FRAME_DATA_VIDEO_ENC_PARAMS => .VIDEO_ENC_PARAMS
  | .AV_FRAME_DATA_SEI_UNREGISTERED => .SEI_UNREGISTERED
  | .AV_FRAME_DATA_FILM_GRAIN_PARAMS => .FILM_GRAIN_PARAMS

/-- Reverse conversion, from `impl From<Type> for AVFrameSideDataType`. -/
def FrameSideDataType.toNative : FrameSideDataType → AVFrameSideDataType
  | .PanScan => .AV_FRAME_DATA_PANSCAN
  | .A53CC => .AV_FRAME_DATA_A53_CC
  | .Stereo3D => .AV_FRAME_DATA_STEREO3D
  | .MatrixEncoding => .AV_FRAME_DATA_MATRIXENCODING
  | .DownMixInfo => .AV_FRAME_DATA_DOWNMIX_INFO
  | .ReplayGain => .AV_FRAME_DATA_REPLAYGAIN
  | .DisplayMatrix => .AV_FRAME_DATA_DISPLAYMATRIX
  | .AFD => .AV_FRAME_DATA_AFD
  | .MotionVectors => .AV_FRAME_DATA_MOTION_VECTORS
  | .SkipSamples => .AV_FRAME_DATA_SKIP_SAMPLES
  | .AudioServiceType => .AV_FRAME_DATA_AUDIO_SERVICE_TYPE
  | .MasteringDisplayMetadata => .AV_FRAME_DATA_MASTERING_DISPLAY_METADATA
  | .GOPTimecode => .AV_FRAME_DATA_GOP_TIMECODE
  | .Spherical => .AV_FRAME_DATA_SPHERICAL
  | .ContentLightLevel => .AV_FRAME_DATA_CONTENT_LIGHT_LEVEL
  | .IccProfile => .AV_FRAME_DATA_ICC_PROFILE
  | .QPTableProperties => .AV_FRAME_DATA_QP_TABLE_PROPERTIES
  | .QPTableData => .AV_FRAME_DATA_QP_TABLE_DATA
  | .S12M_TIMECODE => .AV_FRAME_DATA_S12M_TIMECODE
  | .DYNAMIC_HDR_PLUS => .AV_FRAME_DATA_DYNAMIC_HDR_PLUS
  | .REGIONS_OF_INTEREST => .AV_FRAME_DATA_REGIONS_OF_INTEREST
  | .VIDEO_ENC_PARAMS => .AV_FRAME_DATA_VIDEO_ENC_PARAMS
  | .SEI_UNREGISTERED => .AV_FRAME_DATA_SEI_UNREGISTERED
  | .FILM_GRAIN_PARAMS => .AV_FRAME_DATA_FILM_GRAIN_PARAMS
/-- The native `AVPixelFormat` discriminants matched by the library, one
constructor per constant handled by `impl From<AVPixelFormat> for Pixel`
under the fixed feature configuration. -/
inductive AVPixelFormat where
  | AV_PIX_FMT_NONE
  | AV_PIX_FMT_YUV420P
  | AV_PIX_FMT_YUYV422
  | AV_PIX_FMT_RGB24
  | AV_PIX_FMT_BGR24
  | AV_PIX_FMT_YUV422P
  | AV_PIX_FMT_YUV444P
  | AV_PIX_FMT_YUV410P
  | AV_PIX_FMT_YUV411P
  | AV_PIX_FMT_GRAY8
  | AV_PIX_FMT_MONOWHITE
  | AV_PIX_FMT_MONOBLACK
  | AV_PIX_FMT_PAL8
  | AV_PIX_FMT_YUVJ420P
  | AV_PIX_FMT_YUVJ422P
  | AV_PIX_FMT_YUVJ444P
  | AV_PIX_FMT_XVMC
  | AV_PIX_FMT_UYVY422
  | AV_PIX_FMT_UYYVYY411
  | AV_PIX_FMT_BGR8
  | AV_PIX_FMT_BGR4
  | AV_PIX_FMT_BGR4_BYTE
  | AV_PIX_FMT_RGB8
  | AV_PIX_FMT_RGB4
  | AV_PIX_FMT_RGB4_BYTE
  | AV_PIX_FMT_NV12
  | AV_PIX_FMT_NV21
  | AV_PIX_FMT_ARGB
  | AV_PIX_FMT_RGBA
  | AV_PIX_FMT_ABGR
  | AV_PIX_FMT_BGRA
  | AV_PIX_FMT_GRAY16BE
  | AV_PIX_FMT_GRAY16LE
  | AV_PIX_FMT_YUV440P
  | AV_PIX_FMT_YUVJ440P
  | AV_PIX_FMT_YUVA420P
  | AV_PIX_FMT_RGB48BE
  | AV_PIX_FMT_RGB48LE
  | AV_PIX_FMT_RGB565BE
  | AV_PIX_FMT_RGB565LE
  | AV_PIX_FMT_RGB555BE
  | AV_PIX_FMT_RGB555LE
  | AV_PIX_FMT_BGR565BE
  | AV_PIX_FMT_BGR565LE
  | AV_PIX_FMT_BGR555BE
  | AV_PIX_FMT_BGR555LE
  | AV_PIX_FMT_VAAPI_MOCO
  | AV_PIX_FMT_VAAPI_IDCT
  | AV_PIX_FMT_VAAPI_VLD
  | AV_PIX_FMT_YUV420P16LE
  | AV_PIX_FMT_YUV420P16BE
  | AV_PIX_FMT_YUV422P16LE
  | AV_PIX_FMT_YUV422P16BE
  | AV_PIX_FMT_YUV444P16LE
  | AV_PIX_FMT_YUV444P16BE
  | AV_PIX_FMT_DXVA2_VLD
  | AV_PIX_FMT_RGB444LE
  | AV_PIX_FMT_RGB444BE
  | AV_PIX_FMT_BGR444LE
  | AV_PIX_FMT_BGR444BE
  | AV_PIX_FMT_YA8
  | AV_PIX_FMT_BGR48BE
  | AV_PIX_FMT_BGR48LE
  | AV_PIX_FMT_YUV420P9BE
  | AV_PIX_FMT_YUV420P9LE
  | AV_PIX_FMT_YUV420P10BE
  | AV_PIX_FMT_YUV420P10LE
  | AV_PIX_FMT_YUV422P10BE
  | AV_PIX_FMT_YUV422P10LE
  | AV_PIX_FMT_YUV444P9BE
  | AV_PIX_FMT_YUV444P9LE
  | AV_PIX_FMT_YUV444P10BE
  | AV_PIX_FMT_YUV444P10LE
  | AV_PIX_FMT_YUV422P9BE
  | AV_PIX_FMT_YUV422P9LE
  | AV_PIX_FMT_GBRP
  | AV_PIX_FMT_GBRP9BE
  | AV_PIX_FMT_GBRP9LE
  | AV_PIX_FMT_GBRP10BE
  | AV_PIX_FMT_GBRP10LE
  | AV_PIX_FMT_GBRP16BE
  | AV_PIX_FMT_GBRP16LE
  | AV_PIX_FMT_YUVA420P9BE
  | AV_PIX_FMT_YUVA420P9LE
  | AV_PIX_FMT_YUVA422P9BE
  | AV_PIX_FMT_YUVA422P9LE
  | AV_PIX_FMT_YUVA444P9BE
  | AV_PIX_FMT_YUVA444P9LE
  | AV_PIX_FMT_YUVA420P10BE
  | AV_PIX_FMT_YUVA420P10LE
  | AV_PIX_FMT_YUVA422P10BE
  | AV_PIX_FMT_YUVA422P10LE
  | AV_PIX_FMT_YUVA444P10BE
  | AV_PIX_FMT_YUVA444P10LE
  | AV_PIX_FMT_YUVA420P16BE
  | AV_PIX_FMT_YUVA420P16LE
  | AV_PIX_FMT_YUVA422P16BE
  | AV_PIX_FMT_YUVA422P16LE
  | AV_PIX_FMT_YUVA444P16BE
  | AV_PIX_FMT_YUVA444P16LE
  | AV_PIX_FMT_VDPAU
  | AV_PIX_FMT_XYZ12LE
  | AV_PIX_FMT_XYZ12BE
  | AV_PIX_FMT_NV16
  | AV_PIX_FMT_NV20LE
  | AV_PIX_FMT_NV20BE
  | AV_PIX_FMT_RGBA64BE
  | AV_PIX_FMT_RGBA64LE
  | AV_PIX_FMT_BGRA64BE
  | AV_PIX_FMT_BGRA64LE
  | AV_PIX_FMT_YVYU422
  | AV_PIX_FMT_YA16BE
  | AV_PIX_FMT_YA16LE
  | AV_PIX_FMT_QSV
  | AV_PIX_FMT_MMAL
  | AV_PIX_FMT_D3D11VA_VLD
  | AV_PIX_FMT_CUDA
  | AV_PIX_FMT_0RGB
  | AV_PIX_FMT_RGB0
  | AV_PIX_FMT_0BGR
  | AV_PIX_FMT_BGR0
  | AV_PIX_FMT_YUVA444P
  | AV_PIX_FMT_YUVA422P
  | AV_PIX_FMT_YUV420P12BE
  | AV_PIX_FMT_YUV420P12LE
  | AV_PIX_FMT_YUV420P14BE
  | AV_PIX_FMT_YUV420P14LE
  | AV_PIX_FMT_YUV422P12BE
  | AV_PIX_FMT_YUV422P12LE
  | AV_PIX_FMT_YUV422P14BE
  | AV_PIX_FMT_YUV422P14LE
  | AV_PIX_FMT_YUV444P12BE
  | AV_PIX_FMT_YUV444P12LE
  | AV_PIX_FMT_YUV444P14BE
  | AV_PIX_FMT_YUV444P14LE
  | AV_PIX_FMT_GBRP12BE
  | AV_PIX_FMT_GBRP12LE
  | AV_PIX_FMT_GBRP14BE
  | AV_PIX_FMT_GBRP14LE
  | AV_PIX_FMT_GBRAP
  | AV_PIX_FMT_GBRAP16BE
  | AV_PIX_FMT_GBRAP16LE
  | AV_PIX_FMT_YUVJ411P
  | AV_PIX_FMT_BAYER_BGGR8
  | AV_PIX_FMT_BAYER_RGGB8
  | AV_PIX_FMT_BAYER_GBRG8
  | AV_PIX_FMT_BAYER_GRBG8
  | AV_PIX_FMT_BAYER_BGGR16LE
  | AV_PIX_FMT_BAYER_BGGR16BE
  | AV_PIX_FMT_BAYER_RGGB16LE
  | AV_PIX_FMT_BAYER_RGGB16BE
  | AV_PIX_FMT_BAYER_GBRG16LE
  | AV_PIX_FMT_BAYER_GBRG16BE
  | AV_PIX_FMT_BAYER_GRBG16LE
  | AV_PIX_FMT_BAYER_GRBG16BE
  | AV_PIX_FMT_YUV440P10LE
  | AV_PIX_FMT_YUV440P10BE
  | AV_PIX_FMT_YUV440P12LE
  | AV_PIX_FMT_YUV440P12BE
  | AV_PIX_FMT_AYUV64LE
  | AV_PIX_FMT_AYUV64BE
  | AV_PIX_FMT_VIDEOTOOLBOX
  | AV_PIX_FMT_P010LE
  | AV_PIX_FMT_P010BE
  | AV_PIX_FMT_GBRAP12BE
  | AV_PIX_FMT_GBRAP12LE
  | AV_PIX_FMT_GBRAP10LE
  | AV_PIX_FMT_GBRAP10BE
  | AV_PIX_FMT_MEDIACODEC
  | AV_PIX_FMT_GRAY12BE
  | AV_PIX_FMT_GRAY12LE
  | AV_PIX_FMT_GRAY10BE
  | AV_PIX_FMT_GRAY10LE
  | AV_PIX_FMT_P016LE
  | AV_PIX_FMT_P016BE
  | AV_PIX_FMT_NB
  | AV_PIX_FMT_D3D11
  | AV_PIX_FMT_GRAY9BE
  | AV_PIX_FMT_GRAY9LE
  | AV_PIX_FMT_GBRPF32BE
  | AV_PIX_FMT_GBRPF32LE
  | AV_PIX_FMT_GBRAPF32BE
  | AV_PIX_FMT_GBRAPF32LE
  | AV_PIX_FMT_DRM_PRIME
  | AV_PIX_FMT_OPENCL
  | AV_PIX_FMT_GRAY14BE
  | AV_PIX_FMT_GRAY14LE
  | AV_PIX_FMT_GRAYF32BE
  | AV_PIX_FMT_GRAYF32LE
  | AV_PIX_FMT_YUVA422P12BE
  | AV_PIX_FMT_YUVA422P12LE
  | AV_PIX_FMT_YUVA444P12BE
  | AV_PIX_FMT_YUVA444P12LE
  | AV_PIX_FMT_NV24
  | AV_PIX_FMT_NV42
  | AV_PIX_FMT_VULKAN
  | AV_PIX_FMT_Y210BE
  | AV_PIX_FMT_Y210LE
  | AV_PIX_FMT_X2RGB10LE
  | AV_PIX_FMT_X2RGB10BE
  deriving DecidableEq, Repr

/-- Native alias constant `AV_PIX_FMT_RGB32`: little-endian resolution of the
corresponding `AV_PIX_FMT_NE` alias in the native headers, per the ABI contract. -/
def AV_PIX_FMT_RGB32 : AVPixelFormat := AVPixelFormat.AV_PIX_FMT_BGRA

/-- Native alias constant `AV_PIX_FMT_RGB32_1`: little-endian resolution of the
corresponding `AV_PIX_FMT_NE` alias in the native headers, per the ABI contract. -/
def AV_PIX_FMT_RGB32_1 : AVPixelFormat := AVPixelFormat.AV_PIX_FMT_ABGR

/-- Native alias constant `AV_PIX_FMT_BGR32`: little-endian resolution of the
corresponding `AV_PIX_FMT_NE` alias in the native headers, per the ABI contract. -/
def AV_PIX_FMT_BGR32 : AVPixelFormat := AVPixelFormat.AV_PIX_FMT_RGBA

/-- Native alias constant `AV_PIX_FMT_BGR32_1`: little-endian resolution of the
corresponding `AV_PIX_FMT_NE` alias in the native headers, per the ABI contract. -/
def AV_PIX_FMT_BGR32_1 : AVPixelFormat := AVPixelFormat.AV_PIX_FMT_ARGB

/-- Native alias constant `AV_PIX_FMT_0RGB32`: little-endian resolution of the
corresponding `AV_PIX_FMT_NE` alias in the native headers, per the ABI contract. -/
def AV_PIX_FMT_0RGB32 : AVPixelFormat := AVPixelFormat.AV_PIX_FMT_BGR0

/-- Native alias constant `AV_PIX_FMT_0BGR32`: little-endian resolution of the
corresponding `AV_PIX_FMT_NE` alias in the native headers, per the ABI contract. -/
def AV_PIX_FMT_0BGR32 : AVPixelFormat := AVPixelFormat.AV_PIX_FMT_RGB0

/-- Native alias constant `AV_PIX_FMT_GRAY16`: little-endian resolution of the
corresponding `AV_PIX_FMT_NE` alias in the native headers, per the ABI contract. -/
def AV_PIX_FMT_GRAY16 : AVPixelFormat := AVPixelFormat.AV_PIX_FMT_GRAY16LE

/-- Native alias constant `AV_PIX_FMT_YA16`: little-endian resolution of the
corresponding `AV_PIX_FMT_NE` alias in the native headers, per the ABI contract. -/
def AV_PIX_FMT_YA16 : AVPixelFormat := AVPixelFormat.AV_PIX_FMT_YA16LE

/-- Native alias constant `AV_PIX_FMT_RGB48`: little-endian resolution of the
corresponding `AV_PIX_FMT_NE` alias in the native headers, per the ABI contract. -/
def AV_PIX_FMT_RGB48 : AVPixelFormat := AVPixelFormat.AV_PIX_FMT_RGB48LE

/-- Native alias constant `AV_PIX_FMT_RGB565`: little-endian resolution of the
corresponding `AV_PIX_FMT_NE` alias in the native headers, per the ABI contract. -/
def AV_PIX_FMT_RGB565 : AVPixelFormat := AVPixelFormat.AV_PIX_FMT_RGB565LE

/-- Native alias constant `AV_PIX_FMT_RGB555`: little-endian resolution of the
corresponding `AV_PIX_FMT_NE` alias in the native headers, per the ABI contract. -/
def AV_PIX_FMT_RGB555 : AVPixelFormat := AVPixelFormat.AV_PIX_FMT_RGB555LE

/-- Native alias constant `AV_PIX_FMT_RGB444`: little-endian resolution of the
corresponding `AV_PIX_FMT_NE` alias in the native headers, per the ABI contract. -/
def AV_PIX_FMT_RGB444 : AVPixelFormat := AVPixelFormat.AV_PIX_FMT_RGB444LE

/-- Native alias constant `AV_PIX_FMT_BGR48`: little-endian resolution of the
corresponding `AV_PIX_FMT_NE` alias in the native headers, per the ABI contract. -/
def AV_PIX_FMT_BGR48 : AVPixelFormat := AVPixelFormat.AV_PIX_FMT_BGR48LE

/-- Native alias constant `AV_PIX_FMT_BGR565`: little-endian resolution of the
corresponding `AV_PIX_FMT_NE` alias in the native headers, per the ABI contract. -/
def AV_PIX_FMT_BGR565 : AVPixelFormat := AVPixelFormat.AV_PIX_FMT_BGR565LE

/-- Native alias constant `AV_PIX_FMT_BGR555`: little-endian resolution of the
corresponding `AV_PIX_FMT_NE` alias in the native headers, per the ABI contract. -/
def AV_PIX_FMT_BGR555 : AVPixelFormat := AVPixelFormat.AV_PIX_FMT_BGR555LE

/-- Native alias constant `AV_PIX_FMT_BGR444`: little-endian resolution of the
corresponding `AV_PIX_FMT_NE` alias in the native headers, per the ABI contract. -/
def AV_PIX_FMT_BGR444 : AVPixelFormat := AVPixelFormat.AV_PIX_FMT_BGR444LE

/-- Native alias constant `AV_PIX_FMT_YUV420P9`: little-endian resolution of the
corresponding `AV_PIX_FMT_NE` alias in the native headers, per the ABI contract. -/
def AV_PIX_FMT_YUV420P9 : AVPixelFormat := AVPixelFormat.AV_PIX_FMT_YUV420P9LE

/-- Native alias constant `AV_PIX_FMT_YUV422P9`: little-endian resolution of the
corresponding `AV_PIX_FMT_NE` alias in the native headers, per the ABI contract. -/
def AV_PIX_FMT_YUV422P9 : AVPixelFormat := AVPixelFormat.AV_PIX_FMT_YUV422P9LE

/-- Native alias constant `AV_PIX_FMT_YUV444P9`: little-endian resolution of the
corresponding `AV_PIX_FMT_NE` alias in the native headers, per the ABI contract. -/
def AV_PIX_FMT_YUV444P9 : AVPixelFormat := AVPixelFormat.AV_PIX_FMT_YUV444P9LE

/-- Native alias constant `AV_PIX_FMT_YUV420P10`: little-endian resolution of the
corresponding `AV_PIX_FMT_NE` alias in the native headers, per the ABI contract. -/
def AV_PIX_FMT_YUV420P10 : AVPixelFormat := AVPixelFormat.AV_PIX_FMT_YUV420P10LE

/-- Native alias constant `AV_PIX_FMT_YUV422P10`: little-endian resolution of the
corresponding `AV_PIX_FMT_NE` alias in the native headers, per the ABI contract. -/
def AV_PIX_FMT_YUV422P10 : AVPixelFormat := AVPixelFormat.AV_PIX_FMT_YUV422P10LE

/-- Native alias constant `AV_PIX_FMT_YUV440P10`: little-endian resolution of the
corresponding `AV_PIX_FMT_NE` alias in the native headers, per the ABI contract. -/
def AV_PIX_FMT_YUV440P10 : AVPixelFormat := AVPixelFormat.AV_PIX_FMT_YUV440P10LE

/-- Native alias constant `AV_PIX_FMT_YUV444P10`: little-endian resolution of the
corresponding `AV_PIX_FMT_NE` alias in the native headers, per the ABI contract. -/
def AV_PIX_FMT_YUV444P10 : AVPixelFormat := AVPixelFormat.AV_PIX_FMT_YUV444P10LE

/-- Native alias constant `AV_PIX_FMT_YUV420P12`: little-endian resolution of the
corresponding `AV_PIX_FMT_NE` alias in the native headers, per the ABI contract. -/
def AV_PIX_FMT_YUV420P12 : AVPixelFormat := AVPixelFormat.AV_PIX_FMT_YUV420P12LE

/-- Native alias constant `AV_PIX_FMT_YUV422P12`: little-endian resolution of the
corresponding `AV_PIX_FMT_NE` alias in the native headers, per the ABI contract. -/
def AV_PIX_FMT_YUV422P12 : AVPixelFormat := AVPixelFormat.AV_PIX_FMT_YUV422P12LE

/-- Native alias constant `AV_PIX_FMT_YUV440P12`: little-endian resolution of the
corresponding `AV_PIX_FMT_NE` alias in the native headers, per the ABI contract. -/
def AV_PIX_FMT_YUV440P12 : AVPixelFormat := AVPixelFormat.AV_PIX_FMT_YUV440P12LE

/-- Native alias constant `AV_PIX_FMT_YUV444P12`: little-endian resolution of the
corresponding `AV_PIX_FMT_NE` alias in the native headers, per the ABI contract. -/
def AV_PIX_FMT_YUV444P12 : AVPixelFormat := AVPixelFormat.AV_PIX_FMT_YUV444P12LE

/-- Native alias constant `AV_PIX_FMT_YUV420P14`: little-endian resolution of the
corresponding `AV_PIX_FMT_NE` alias in the native headers, per the ABI contract. -/
def AV_PIX_FMT_YUV420P14 : AVPixelFormat := AVPixelFormat.AV_PIX_FMT_YUV420P14LE

/-- Native alias constant `AV_PIX_FMT_YUV422P14`: little-endian resolution of the
corresponding `AV_PIX_FMT_NE` alias in the native headers, per the ABI contract. -/
def AV_PIX_FMT_YUV422P14 : AVPixelFormat := AVPixelFormat.AV_PIX_FMT_YUV422P14LE

/-- Native alias constant `AV_PIX_FMT_YUV444P14`: little-endian resolution of the
corresponding `AV_PIX_FMT_NE` alias in the native headers, per the ABI contract. -/
def AV_PIX_FMT_YUV444P14 : AVPixelFormat := AVPixelFormat.AV_PIX_FMT_YUV444P14LE

/-- Native alias constant `AV_PIX_FMT_YUV420P16`: little-endian resolution of the
corresponding `AV_PIX_FMT_NE` alias in the native headers, per the ABI contract. -/
def AV_PIX_FMT_YUV420P16 : AVPixelFormat := AVPixelFormat.AV_PIX_FMT_YUV420P16LE

/-- Native alias constant `AV_PIX_FMT_YUV422P16`: little-endian resolution of the
corresponding `AV_PIX_FMT_NE` alias in the native headers, per the ABI contract. -/
def AV_PIX_FMT_YUV422P16 : AVPixelFormat := AVPixelFormat.AV_PIX_FMT_YUV422P16LE

/-- Native alias constant `AV_PIX_FMT_YUV444P16`: little-endian resolution of the
corresponding `AV_PIX_FMT_NE` alias in the native headers, per the ABI contract. -/
def AV_PIX_FMT_YUV444P16 : AVPixelFormat := AVPixelFormat.AV_PIX_FMT_YUV444P16LE

/-- Native alias constant `AV_PIX_FMT_GBRP9`: little-endian resolution of the
corresponding `AV_PIX_FMT_NE` alias in the native headers, per the ABI contract. -/
def AV_PIX_FMT_GBRP9 : AVPixelFormat := AVPixelFormat.AV_PIX_FMT_GBRP9LE

/-- Native alias constant `AV_PIX_FMT_GBRP10`: little-endian resolution of the
corresponding `AV_PIX_FMT_NE` alias in the native headers, per the ABI contract. -/
def AV_PIX_FMT_GBRP10 : AVPixelFormat := AVPixelFormat.AV_PIX_FMT_GBRP10LE

/-- Native alias constant `AV_PIX_FMT_GBRP12`: little-endian resolution of the
corresponding `AV_PIX_FMT_NE` alias in the native headers, per the ABI contract. -/
def AV_PIX_FMT_GBRP12 : AVPixelFormat := AVPixelFormat.AV_PIX_FMT_GBRP12LE

/-- Native alias constant `AV_PIX_FMT_GBRP14`: little-endian resolution of the
corresponding `AV_PIX_FMT_NE` alias in the native headers, per the ABI contract. -/
def AV_PIX_FMT_GBRP14 : AVPixelFormat := AVPixelFormat.AV_PIX_FMT_GBRP14LE

/-- Native alias constant `AV_PIX_FMT_GBRP16`: little-endian resolution of the
corresponding `AV_PIX_FMT_NE` alias in the native headers, per the ABI contract. -/
def AV_PIX_FMT_GBRP16 : AVPixelFormat := AVPixelFormat.AV_PIX_FMT_GBRP16LE

/-- Native alias constant `AV_PIX_FMT_GBRAP16`: little-endian resolution of the
corresponding `AV_PIX_FMT_NE` alias in the native headers, per the ABI contract. -/
def AV_PIX_FMT_GBRAP16 : AVPixelFormat := AVPixelFormat.AV_PIX_FMT_GBRAP16LE

/-- Native alias constant `AV_PIX_FMT_BAYER_BGGR16`: little-endian resolution of the
corresponding `AV_PIX_FMT_NE` alias in the native headers, per the ABI contract. -/
def AV_PIX_FMT_BAYER_BGGR16 : AVPixelFormat := AVPixelFormat.AV_PIX_FMT_BAYER_BGGR16LE

/-- Native alias constant `AV_PIX_FMT_BAYER_RGGB16`: little-endian resolution of the
corresponding `AV_PIX_FMT_NE` alias in the native headers, per the ABI contract. -/
def AV_PIX_FMT_BAYER_RGGB16 : AVPixelFormat := AVPixelFormat.AV_PIX_FMT_BAYER_RGGB16LE

/-- Native alias constant `AV_PIX_FMT_BAYER_GBRG16`: little-endian resolution of the
corresponding `AV_PIX_FMT_NE` alias in the native headers, per the ABI contract. -/
def AV_PIX_FMT_BAYER_GBRG16 : AVPixelFormat := AVPixelFormat.AV_PIX_FMT_BAYER_GBRG16LE

/-- Native alias constant `AV_PIX_FMT_BAYER_GRBG16`: little-endian resolution of the
corresponding `AV_PIX_FMT_NE` alias in the native headers, per the ABI contract. -/
def AV_PIX_FMT_BAYER_GRBG16 : AVPixelFormat := AVPixelFormat.AV_PIX_FMT_BAYER_GRBG16LE

/-- Native alias constant `AV_PIX_FMT_YUVA420P9`: little-endian resolution of the
corresponding `AV_PIX_FMT_NE` alias in the native headers, per the ABI contract. -/
def AV_PIX_FMT_YUVA420P9 : AVPixelFormat := AVPixelFormat.AV_PIX_FMT_YUVA420P9LE

/-- Native alias constant `AV_PIX_FMT_YUVA422P9`: little-endian resolution of the
corresponding `AV_PIX_FMT_NE` alias in the native headers, per the ABI contract. -/
def AV_PIX_FMT_YUVA422P9 : AVPixelFormat := AVPixelFormat.AV_PIX_FMT_YUVA422P9LE

/-- Native alias constant `AV_PIX_FMT_YUVA444P9`: little-endian resolution of the
corresponding `AV_PIX_FMT_NE` alias in the native headers, per the ABI contract. -/
def AV_PIX_FMT_YUVA444P9 : AVPixelFormat := AVPixelFormat.AV_PIX_FMT_YUVA444P9LE

/-- Native alias constant `AV_PIX_FMT_YUVA420P10`: little-endian resolution of the
corresponding `AV_PIX_FMT_NE` alias in the native headers, per the ABI contract. -/
def AV_PIX_FMT_YUVA420P10 : AVPixelFormat := AVPixelFormat.AV_PIX_FMT_YUVA420P10LE

/-- Native alias constant `AV_PIX_FMT_YUVA422P10`: little-endian resolution of the
corresponding `AV_PIX_FMT_NE` alias in the native headers, per the ABI contract. -/
def AV_PIX_FMT_YUVA422P10 : AVPixelFormat := AVPixelFormat.AV_PIX_FMT_YUVA422P10LE

/-- Native alias constant `AV_PIX_FMT_YUVA444P10`: little-endian resolution of the
corresponding `AV_PIX_FMT_NE` alias in the native headers, per the ABI contract. -/
def AV_PIX_FMT_YUVA444P10 : AVPixelFormat := AVPixelFormat.AV_PIX_FMT_YUVA444P10LE

/-- Native alias constant `AV_PIX_FMT_YUVA420P16`: little-endian resolution of the
corresponding `AV_PIX_FMT_NE` alias in the native headers, per the ABI contract. -/
def AV_PIX_FMT_YUVA420P16 : AVPixelFormat := AVPixelFormat.AV_PIX_FMT_YUVA420P16LE

/-- Native alias constant `AV_PIX_FMT_YUVA422P16`: little-endian resolution of the
corresponding `AV_PIX_FMT_NE` alias in the native headers, per the ABI contract. -/
def AV_PIX_FMT_YUVA422P16 : AVPixelFormat := AVPixelFormat.AV_PIX_FMT_YUVA422P16LE

/-- Native alias constant `AV_PIX_FMT_YUVA444P16`: little-endian resolution of the
corresponding `AV_PIX_FMT_NE` alias in the native headers, per the ABI contract. -/
def AV_PIX_FMT_YUVA444P16 : AVPixelFormat := AVPixelFormat.AV_PIX_FMT_YUVA444P16LE

/-- Native alias constant `AV_PIX_FMT_XYZ12`: little-endian resolution of the
corresponding `AV_PIX_FMT_NE` alias in the native headers, per the ABI contract. -/
def AV_PIX_FMT_XYZ12 : AVPixelFormat := AVPixelFormat.AV_PIX_FMT_XYZ12LE

/-- Native alias constant `AV_PIX_FMT_NV20`: little-endian resolution of the
corresponding `AV_PIX_FMT_NE` alias in the native headers, per the ABI contract. -/
def AV_PIX_FMT_NV20 : AVPixelFormat := AVPixelFormat.AV_PIX_FMT_NV20LE

/-- Native alias constant `AV_PIX_FMT_AYUV64`: little-endian resolution of the
corresponding `AV_PIX_FMT_NE` alias in the native headers, per the ABI contract. -/
def AV_PIX_FMT_AYUV64 : AVPixelFormat := AVPixelFormat.AV_PIX_FMT_AYUV64LE

/-- The safe `Pixel` enumeration of `util/format/pixel.rs`. -/
inductive Pixel where
  | None
  | YUV420P
  | YUYV422
  | RGB24
  | BGR24
  | YUV422P
  | YUV444P
  | YUV410P
  | YUV411P
  | GRAY8
  | MonoWhite
  | MonoBlack
  | PAL8
  | YUVJ420P
  | YUVJ422P
  | YUVJ444P
  | UYVY422
  | UYYVYY411
  | BGR8
  | BGR4
  | BGR4_BYTE
  | RGB8
  | RGB4
  | RGB4_BYTE
  | NV12
  | NV21
  | ARGB
  | RGBA
  | ABGR
  | BGRA
  | GRAY16BE
  | GRAY16LE
  | YUV440P
  | YUVJ440P
  | YUVA420P
  | RGB48BE
  | RGB48LE
  | RGB565BE
  | RGB565LE
  | RGB555BE
  | RGB555LE
  | BGR565BE
  | BGR565LE
  | BGR555BE
  | BGR555LE
  | VAAPI_MOCO
  | VAAPI_IDCT
  | VAAPI_VLD
  | YUV420P16LE
  | YUV420P16BE
  | YUV422P16LE
  | YUV422P16BE
  | YUV444P16LE
  | YUV444P16BE
  | DXVA2_VLD
  | RGB444LE
  | RGB444BE
  | BGR444LE
  | BGR444BE
  | YA8
  | BGR48BE
  | BGR48LE
  | YUV420P9BE
  | YUV420P9LE
  | YUV420P10BE
  | YUV420P10LE
  | YUV422P10BE
  | YUV422P10LE
  | YUV444P9BE
  | YUV444P9LE
  | YUV444P10BE
  | YUV444P10LE
  | YUV422P9BE
  | YUV422P9LE
  | GBRP
  | GBRP9BE
  | GBRP9LE
  | GBRP10BE
  | GBRP10LE
  | GBRP16BE
  | GBRP16LE
  | YUVA420P9BE
  | YUVA420P9LE
  | YUVA422P9BE
  | YUVA422P9LE
  | YUVA444P9BE
  | YUVA444P9LE
  | YUVA420P10BE
  | YUVA420P10LE
  | YUVA422P10BE
  | YUVA422P10LE
  | YUVA444P10BE
  | YUVA444P10LE
  | YUVA420P16BE
  | YUVA420P16LE
  | YUVA422P16BE
  | YUVA422P16LE
  | YUVA444P16BE
  | YUVA444P16LE
  | VDPAU
  | XYZ12LE
  | XYZ12BE
  | NV16
  | NV20LE
  | NV20BE
  | RGBA64BE
  | RGBA64LE
  | BGRA64BE
  | BGRA64LE
  | YVYU422
  | YA16BE
  | YA16LE
  | QSV
  | MMAL
  | D3D11VA_VLD
  | CUDA
  | ZRGB
  | RGBZ
  | ZBGR
  | BGRZ
  | YUVA444P
  | YUVA422P
  | YUV420P12BE
  | YUV420P12LE
  | YUV420P14BE
  | YUV420P14LE
  | YUV422P12BE
  | YUV422P12LE
  | YUV422P14BE
  | YUV422P14LE
  | YUV444P12BE
  | YUV444P12LE
  | YUV444P14BE
  | YUV444P14LE
  | GBRP12BE
  | GBRP12LE
  | GBRP14BE
  | GBRP14LE
  | GBRAP
  | GBRAP16BE
  | GBRAP16LE
  | YUVJ411P
  | BAYER_BGGR8
  | BAYER_RGGB8
  | BAYER_GBRG8
  | BAYER_GRBG8
  | BAYER_BGGR16LE
  | BAYER_BGGR16BE
  | BAYER_RGGB16LE
  | BAYER_RGGB16BE
  | BAYER_GBRG16LE
  | BAYER_GBRG16BE
  | BAYER_GRBG16LE
  | BAYER_GRBG16BE
  | YUV440P10LE
  | YUV440P10BE
  | YUV440P12LE
  | YUV440P12BE
  | AYUV64LE
  | AYUV64BE
  | VIDEOTOOLBOX
  | XVMC
  | RGB32
  | RGB32_1
  | BGR32
  | BGR32_1
  | ZRGB32
  | ZBGR32
  | GRAY16
  | YA16
  | RGB48
  | RGB565
  | RGB555
  | RGB444
  | BGR48
  | BGR565
  | BGR555
  | BGR444
  | YUV420P9
  | YUV422P9
  | YUV444P9
  | YUV420P10
  | YUV422P10
  | YUV440P10
  | YUV444P10
  | YUV420P12
  | YUV422P12
  | YUV440P12
  | YUV444P12
  | YUV420P14
  | YUV422P14
  | YUV444P14
  | YUV420P16
  | YUV422P16
  | YUV444P16
  | GBRP9
  | GBRP10
  | GBRP12
  | GBRP14
  | GBRP16
  | GBRAP16
  | BAYER_BGGR16
  | BAYER_RGGB16
  | BAYER_GBRG16
  | BAYER_GRBG16
  | YUVA420P9
  | YUVA422P9
  | YUVA444P9
  | YUVA420P10
  | YUVA422P10
  | YUVA444P10
  | YUVA420P16
  | YUVA422P16
  | YUVA444P16
  | XYZ12
  | NV20
  | AYUV64
  | P010LE
  | P010BE
  | GBRAP12BE
  | GBRAP12LE
  | GBRAP10LE
  | GBRAP10BE
  | MEDIACODEC
  | GRAY12BE
  | GRAY12LE
  | GRAY10BE
  | GRAY10LE
  | P016LE
  | P016BE
  | D3D11
  | GRAY9BE
  | GRAY9LE
  | GBRPF32BE
  | GBRPF32LE
  | GBRAPF32BE
  | GBRAPF32LE
  | DRM_PRIME
  | OPENCL
  | GRAY14BE
  | GRAY14LE
  | GRAYF32BE
  | GRAYF32LE
  | YUVA422P12BE
  | YUVA422P12LE
  | YUVA444P12BE
  | YUVA444P12LE
  | NV24
  | NV42
  | VULKAN
  | Y210BE
  | Y210LE
  | X2RGB10LE
  | X2RGB10BE
  deriving DecidableEq, Repr

/-- Forward conversion, from `impl From<AVPixelFormat> for Pixel` in pixel.rs. -/
def Pixel.fromNative : AVPixelFormat → Pixel
  | .AV_PIX_FMT_NONE => .None
  | .AV_PIX_FMT_YUV420P => .YUV420P
  | .AV_PIX_FMT_YUYV422 => .YUYV422
  | .AV_PIX_FMT_RGB24 => .RGB24
  | .AV_PIX_FMT_BGR24 => .BGR24
  | .AV_PIX_FMT_YUV422P => .YUV422P
  | .AV_PIX_FMT_YUV444P => .YUV444P
  | .AV_PIX_FMT_YUV410P => .YUV410P
  | .AV_PIX_FMT_YUV411P => .YUV411P
  | .AV_PIX_FMT_GRAY8 => .GRAY8
  | .AV_PIX_FMT_MONOWHITE => .MonoWhite
  | .AV_PIX_FMT_MONOBLACK => .MonoBlack
  | .AV_PIX_FMT_PAL8 => .PAL8
  | .AV_PIX_FMT_YUVJ420P => .YUVJ420P
  | .AV_PIX_FMT_YUVJ422P => .YUVJ422P
  | .AV_PIX_FMT_YUVJ444P => .YUVJ444P
  | .AV_PIX_FMT_XVMC => .XVMC
  | .AV_PIX_FMT_UYVY422 => .UYVY422
  | .AV_PIX_FMT_UYYVYY411 => .UYYVYY411
  | .AV_PIX_FMT_BGR8 => .BGR8
  | .AV_PIX_FMT_BGR4 => .BGR4
  | .AV_PIX_FMT_BGR4_BYTE => .BGR4_BYTE
  | .AV_PIX_FMT_RGB8 => .RGB8
  | .AV_PIX_FMT_RGB4 => .RGB4
  | .AV_PIX_FMT_RGB4_BYTE => .RGB4_BYTE
  | .AV_PIX_FMT_NV12 => .NV12
  | .AV_PIX_FMT_NV21 => .NV21
  | .AV_PIX_FMT_ARGB => .ARGB
  | .AV_PIX_FMT_RGBA => .RGBA
  | .AV_PIX_FMT_ABGR => .ABGR
  | .AV_PIX_FMT_BGRA => .BGRA
  | .AV_PIX_FMT_GRAY16BE => .GRAY16BE
  | .AV_PIX_FMT_GRAY16LE => .GRAY16LE
  | .AV_PIX_FMT_YUV440P => .YUV440P
  | .AV_PIX_FMT_YUVJ440P => .YUVJ440P
  | .AV_PIX_FMT_YUVA420P => .YUVA420P
  | .AV_PIX_FMT_RGB48BE => .RGB48BE
  | .AV_PIX_FMT_RGB48LE => .RGB48LE
  | .AV_PIX_FMT_RGB565BE => .RGB565BE
  | .AV_PIX_FMT_RGB565LE => .RGB565LE
  | .AV_PIX_FMT_RGB555BE => .RGB555BE
  | .AV_PIX_FMT_RGB555LE => .RGB555LE
  | .AV_PIX_FMT_BGR565BE => .BGR565BE
  | .AV_PIX_FMT_BGR565LE => .BGR565LE
  | .AV_PIX_FMT_BGR555BE => .BGR555BE
  | .AV_PIX_FMT_BGR555LE => .BGR555LE
  | .AV_PIX_FMT_VAAPI_MOCO => .VAAPI_MOCO
  | .AV_PIX_FMT_VAAPI_IDCT => .VAAPI_IDCT
  | .AV_PIX_FMT_VAAPI_VLD => .VAAPI_VLD
  | .AV_PIX_FMT_YUV420P16LE => .YUV420P16LE
  | .AV_PIX_FMT_YUV420P16BE => .YUV420P16BE
  | .AV_PIX_FMT_YUV422P16LE => .YUV422P16LE
  | .AV_PIX_FMT_YUV422P16BE => .YUV422P16BE
  | .AV_PIX_FMT_YUV444P16LE => .YUV444P16LE
  | .AV_PIX_FMT_YUV444P16BE => .YUV444P16BE
  | .AV_PIX_FMT_DXVA2_VLD => .DXVA2_VLD
  | .AV_PIX_FMT_RGB444LE => .RGB444LE
  | .AV_PIX_FMT_RGB444BE => .RGB444BE
  | .AV_PIX_FMT_BGR444LE => .BGR444LE
  | .AV_PIX_FMT_BGR444BE => .BGR444BE
  | .AV_PIX_FMT_YA8 => .YA8
  | .AV_PIX_FMT_BGR48BE => .BGR48BE
  | .AV_PIX_FMT_BGR48LE => .BGR48LE
  | .AV_PIX_FMT_YUV420P9BE => .YUV420P9BE
  | .AV_PIX_FMT_YUV420P9LE => .YUV420P9LE
  | .AV_PIX_FMT_YUV420P10BE => .YUV420P10BE
  | .AV_PIX_FMT_YUV420P10LE => .YUV420P10LE
  | .AV_PIX_FMT_YUV422P10BE => .YUV422P10BE
  | .AV_PIX_FMT_YUV422P10LE => .YUV422P10LE
  | .AV_PIX_FMT_YUV444P9BE => .YUV444P9BE
  | .AV_PIX_FMT_YUV444P9LE => .YUV444P9LE
  | .AV_PIX_FMT_YUV444P10BE => .YUV444P10BE
  | .AV_PIX_FMT_YUV444P10LE => .YUV444P10LE
  | .AV_PIX_FMT_YUV422P9BE => .YUV422P9BE
  | .AV_PIX_FMT_YUV422P9LE => .YUV422P9LE
  | .AV_PIX_FMT_GBRP => .GBRP
  | .AV_PIX_FMT_GBRP9BE => .GBRP9BE
  | .AV_PIX_FMT_GBRP9LE => .GBRP9LE
  | .AV_PIX_FMT_GBRP10BE => .GBRP10BE
  | .AV_PIX_FMT_GBRP10LE => .GBRP10LE
  | .AV_PIX_FMT_GBRP16BE => .GBRP16BE
  | .AV_PIX_FMT_GBRP16LE => .GBRP16LE
  | .AV_PIX_FMT_YUVA420P9BE => .YUVA420P9BE
  | .AV_PIX_FMT_YUVA420P9LE => .YUVA420P9LE
  | .AV_PIX_FMT_YUVA422P9BE => .YUVA422P9BE
  | .AV_PIX_FMT_YUVA422P9LE => .YUVA422P9LE
  | .AV_PIX_FMT_YUVA444P9BE => .YUVA444P9BE
  | .AV_PIX_FMT_YUVA444P9LE => .YUVA444P9LE
  | .AV_PIX_FMT_YUVA420P10BE => .YUVA420P10BE
  | .AV_PIX_FMT_YUVA420P10LE => .YUVA420P10LE
  | .AV_PIX_FMT_YUVA422P10BE => .YUVA422P10BE
  | .AV_PIX_FMT_YUVA422P10LE => .YUVA422P10LE
  | .AV_PIX_FMT_YUVA444P10BE => .YUVA444P10BE
  | .AV_PIX_FMT_YUVA444P10LE => .YUVA444P10LE
  | .AV_PIX_FMT_YUVA420P16BE => .YUVA420P16BE
  | .AV_PIX_FMT_YUVA420P16LE => .YUVA420P16LE
  | .AV_PIX_FMT_YUVA422P16BE => .YUVA422P16BE
  | .AV_PIX_FMT_YUVA422P16LE => .YUVA422P16LE
  | .AV_PIX_FMT_YUVA444P16BE => .YUVA444P16BE
  | .AV_PIX_FMT_YUVA444P16LE => .YUVA444P16LE
  | .AV_PIX_FMT_VDPAU => .VDPAU
  | .AV_PIX_FMT_XYZ12LE => .XYZ12LE
  | .AV_PIX_FMT_XYZ12BE => .XYZ12BE
  | .AV_PIX_FMT_NV16 => .NV16
  | .AV_PIX_FMT_NV20LE => .NV20LE
  | .AV_PIX_FMT_NV20BE => .NV20BE
  | .AV_PIX_FMT_RGBA64BE => .RGBA64BE
  | .AV_PIX_FMT_RGBA64LE => .RGBA64LE
  | .AV_PIX_FMT_BGRA64BE => .BGRA64BE
  | .AV_PIX_FMT_BGRA64LE => .BGRA64LE
  | .AV_PIX_FMT_YVYU422 => .YVYU422
  | .AV_PIX_FMT_YA16BE => .YA16BE
  | .AV_PIX_FMT_YA16LE => .YA16LE
  | .AV_PIX_FMT_QSV => .QSV
  | .AV_PIX_FMT_MMAL => .MMAL
  | .AV_PIX_FMT_D3D11VA_VLD => .D3D11VA_VLD
  | .AV_PIX_FMT_CUDA => .CUDA
  | .AV_PIX_FMT_0RGB => .ZRGB
  | .AV_PIX_FMT_RGB0 => .RGBZ
  | .AV_PIX_FMT_0BGR => .ZBGR
  | .AV_PIX_FMT_BGR0 => .BGRZ
  | .AV_PIX_FMT_YUVA444P => .YUVA444P
  | .AV_PIX_FMT_YUVA422P => .YUVA422P
  | .AV_PIX_FMT_YUV420P12BE => .YUV420P12BE
  | .AV_PIX_FMT_YUV420P12LE => .YUV420P12LE
  | .AV_PIX_FMT_YUV420P14BE => .YUV420P14BE
  | .AV_PIX_FMT_YUV420P14LE => .YUV420P14LE
  | .AV_PIX_FMT_YUV422P12BE => .YUV422P12BE
  | .AV_PIX_FMT_YUV422P12LE => .YUV422P12LE
  | .AV_PIX_FMT_YUV422P14BE => .YUV422P14BE
  | .AV_PIX_FMT_YUV422P14LE => .YUV422P14LE
  | .AV_PIX_FMT_YUV444P12BE => .YUV444P12BE
  | .AV_PIX_FMT_YUV444P12LE => .YUV444P12LE
  | .AV_PIX_FMT_YUV444P14BE => .YUV444P14BE
  | .AV_PIX_FMT_YUV444P14LE => .YUV444P14LE
  | .AV_PIX_FMT_GBRP12BE => .GBRP12BE
  | .AV_PIX_FMT_GBRP12LE => .GBRP12LE
  | .AV_PIX_FMT_GBRP14BE => .GBRP14BE
  | .AV_PIX_FMT_GBRP14LE => .GBRP14LE
  | .AV_PIX_FMT_GBRAP => .GBRAP
  | .AV_PIX_FMT_GBRAP16BE => .GBRAP16BE
  | .AV_PIX_FMT_GBRAP16LE => .GBRAP16LE
  | .AV_PIX_FMT_YUVJ411P => .YUVJ411P
  | .AV_PIX_FMT_BAYER_BGGR8 => .BAYER_BGGR8
  | .AV_PIX_FMT_BAYER_RGGB8 => .BAYER_RGGB8
  | .AV_PIX_FMT_BAYER_GBRG8 => .BAYER_GBRG8
  | .AV_PIX_FMT_BAYER_GRBG8 => .BAYER_GRBG8
  | .AV_PIX_FMT_BAYER_BGGR16LE => .BAYER_BGGR16LE
  | .AV_PIX_FMT_BAYER_BGGR16BE => .BAYER_BGGR16BE
  | .AV_PIX_FMT_BAYER_RGGB16LE => .BAYER_RGGB16LE
  | .AV_PIX_FMT_BAYER_RGGB16BE => .BAYER_RGGB16BE
  | .AV_PIX_FMT_BAYER_GBRG16LE => .BAYER_GBRG16LE
  | .AV_PIX_FMT_BAYER_GBRG16BE => .BAYER_GBRG16BE
  | .AV_PIX_FMT_BAYER_GRBG16LE => .BAYER_GRBG16LE
  | .AV_PIX_FMT_BAYER_GRBG16BE => .BAYER_GRBG16BE
  | .AV_PIX_FMT_YUV440P10LE => .YUV440P10LE
  | .AV_PIX_FMT_YUV440P10BE => .YUV440P10BE
  | .AV_PIX_FMT_YUV440P12LE => .YUV440P12LE
  | .AV_PIX_FMT_YUV440P12BE => .YUV440P12BE
  | .AV_PIX_FMT_AYUV64LE => .AYUV64LE
  | .AV_PIX_FMT_AYUV64BE => .AYUV64BE
  | .AV_PIX_FMT_VIDEOTOOLBOX => .VIDEOTOOLBOX
  | .AV_PIX_FMT_P010LE => .P010LE
  | .AV_PIX_FMT_P010BE => .P010BE
  | .AV_PIX_FMT_GBRAP12BE => .GBRAP12BE
  | .AV_PIX_FMT_GBRAP12LE => .GBRAP12LE
  | .AV_PIX_FMT_GBRAP10LE => .GBRAP10LE
  | .AV_PIX_FMT_GBRAP10BE => .GBRAP10BE
  | .AV_PIX_FMT_MEDIACODEC => .MEDIACODEC
  | .AV_PIX_FMT_GRAY12BE => .GRAY12BE
  | .AV_PIX_FMT_GRAY12LE => .GRAY12LE
  | .AV_PIX_FMT_GRAY10BE => .GRAY10BE
  | .AV_PIX_FMT_GRAY10LE => .GRAY10LE
  | .AV_PIX_FMT_P016LE => .P016LE
  | .AV_PIX_FMT_P016BE => .P016BE
  | .AV_PIX_FMT_NB => .None
  | .AV_PIX_FMT_D3D11 => .D3D11
  | .AV_PIX_FMT_GRAY9BE => .GRAY9BE
  | .AV_PIX_FMT_GRAY9LE => .GRAY9LE
  | .AV_PIX_FMT_GBRPF32BE => .GBRPF32BE
  | .AV_PIX_FMT_GBRPF32LE => .GBRPF32LE
  | .AV_PIX_FMT_GBRAPF32BE => .GBRAPF32BE
  | .AV_PIX_FMT_GBRAPF32LE => .GBRAPF32LE
  | .AV_PIX_FMT_DRM_PRIME => .DRM_PRIME
  | .AV_PIX_FMT_OPENCL => .OPENCL
  | .AV_PIX_FMT_GRAY14BE => .GRAY14BE
  | .AV_PIX_FMT_GRAY14LE => .GRAY14LE
  | .AV_PIX_FMT_GRAYF32BE => .GRAYF32BE
  | .AV_PIX_FMT_GRAYF32LE => .GRAYF32LE
  | .AV_PIX_FMT_YUVA422P12BE => .YUVA422P12BE
  | .AV_PIX_FMT_YUVA422P12LE => .YUVA422P12LE
  | .AV_PIX_FMT_YUVA444P12BE => .YUVA444P12BE
  | .AV_PIX_FMT_YUVA444P12LE => .YUVA444P12LE
  | .AV_PIX_FMT_NV24 => .NV24
  | .AV_PIX_FMT_NV42 => .NV42
  | .AV_PIX_FMT_VULKAN => .VULKAN
  | .AV_PIX_FMT_Y210BE => .Y210BE
  | .AV_PIX_FMT_Y210LE => .Y210LE
  | .AV_PIX_FMT_X2RGB10LE => .X2RGB10LE
  | .AV_PIX_FMT_X2RGB10BE => .X2RGB10BE

/-- Reverse conversion, from `impl From<Pixel> for AVPixelFormat` in pixel.rs. -/
def Pixel.toNative : Pixel → AVPixelFormat
  | .None => .AV_PIX_FMT_NONE
  | .YUV420P => .AV_PIX_FMT_YUV420P
  | .YUYV422 => .AV_PIX_FMT_YUYV422
  | .RGB24 => .AV_PIX_FMT_RGB24
  | .BGR24 => .AV_PIX_FMT_BGR24
  | .YUV422P => .AV_PIX_FMT_YUV422P
  | .YUV444P => .AV_PIX_FMT_YUV444P
  | .YUV410P => .AV_PIX_FMT_YUV410P
  | .YUV411P => .AV_PIX_FMT_YUV411P
  | .GRAY8 => .AV_PIX_FMT_GRAY8
  | .MonoWhite => .AV_PIX_FMT_MONOWHITE
  | .MonoBlack => .AV_PIX_FMT_MONOBLACK
  | .PAL8 => .AV_PIX_FMT_PAL8
  | .YUVJ420P => .AV_PIX_FMT_YUVJ420P
  | .YUVJ422P => .AV_PIX_FMT_YUVJ422P
  | .YUVJ444P => .AV_PIX_FMT_YUVJ444P
  | .UYVY422 => .AV_PIX_FMT_UYVY422
  | .UYYVYY411 => .AV_PIX_FMT_UYYVYY411
  | .BGR8 => .AV_PIX_FMT_BGR8
  | .BGR4 => .AV_PIX_FMT_BGR4
  | .BGR4_BYTE => .AV_PIX_FMT_BGR4_BYTE
  | .RGB8 => .AV_PIX_FMT_RGB8
  | .RGB4 => .AV_PIX_FMT_RGB4
  | .RGB4_BYTE => .AV_PIX_FMT_RGB4_BYTE
  | .NV12 => .AV_PIX_FMT_NV12
  | .NV21 => .AV_PIX_FMT_NV21
  | .ARGB => .AV_PIX_FMT_ARGB
  | .RGBA => .AV_PIX_FMT_RGBA
  | .ABGR => .AV_PIX_FMT_ABGR
  | .BGRA => .AV_PIX_FMT_BGRA
  | .GRAY16BE => .AV_PIX_FMT_GRAY16BE
  | .GRAY16LE => .AV_PIX_FMT_GRAY16LE
  | .YUV440P => .AV_PIX_FMT_YUV440P
  | .YUVJ440P => .AV_PIX_FMT_YUVJ440P
  | .YUVA420P => .AV_PIX_FMT_YUVA420P
  | .RGB48BE => .AV_PIX_FMT_RGB48BE
  | .RGB48LE => .AV_PIX_FMT_RGB48LE
  | .RGB565BE => .AV_PIX_FMT_RGB565BE
  | .RGB565LE => .AV_PIX_FMT_RGB565LE
  | .RGB555BE => .AV_PIX_FMT_RGB555BE
  | .RGB555LE => .AV_PIX_FMT_RGB555LE
  | .BGR565BE => .AV_PIX_FMT_BGR565BE
  | .BGR565LE => .AV_PIX_FMT_BGR565LE
  | .BGR555BE => .AV_PIX_FMT_BGR555BE
  | .BGR555LE => .AV_PIX_FMT_BGR555LE
  | .VAAPI_MOCO => .AV_PIX_FMT_VAAPI_MOCO
  | .VAAPI_IDCT => .AV_PIX_FMT_VAAPI_IDCT
  | .VAAPI_VLD => .AV_PIX_FMT_VAAPI_VLD
  | .YUV420P16LE => .AV_PIX_FMT_YUV420P16LE
  | .YUV420P16BE => .AV_PIX_FMT_YUV420P16BE
  | .YUV422P16LE => .AV_PIX_FMT_YUV422P16LE
  | .YUV422P16BE => .AV_PIX_FMT_YUV422P16BE
  | .YUV444P16LE => .AV_PIX_FMT_YUV444P16LE
  | .YUV444P16BE => .AV_PIX_FMT_YUV444P16BE
  | .DXVA2_VLD => .AV_PIX_FMT_DXVA2_VLD
  | .RGB444LE => .AV_PIX_FMT_RGB444LE
  | .RGB444BE => .AV_PIX_FMT_RGB444BE
  | .BGR444LE => .AV_PIX_FMT_BGR444LE
  | .BGR444BE => .AV_PIX_FMT_BGR444BE
  | .YA8 => .AV_PIX_FMT_YA8
  | .BGR48BE => .AV_PIX_FMT_BGR48BE
  | .BGR48LE => .AV_PIX_FMT_BGR48LE
  | .YUV420P9BE => .AV_PIX_FMT_YUV420P9BE
  | .YUV420P9LE => .AV_PIX_FMT_YUV420P9LE
  | .YUV420P10BE => .AV_PIX_FMT_YUV420P10BE
  | .YUV420P10LE => .AV_PIX_FMT_YUV420P10LE
  | .YUV422P10BE => .AV_PIX_FMT_YUV422P10BE
  | .YUV422P10LE => .AV_PIX_FMT_YUV422P10LE
  | .YUV444P9BE => .AV_PIX_FMT_YUV444P9BE
  | .YUV444P9LE => .AV_PIX_FMT_YUV444P9LE
  | .YUV444P10BE => .AV_PIX_FMT_YUV444P10BE
  | .YUV444P10LE => .AV_PIX_FMT_YUV444P10LE
  | .YUV422P9BE => .AV_PIX_FMT_YUV422P9BE
  | .YUV422P9LE => .AV_PIX_FMT_YUV422P9LE
  | .GBRP => .AV_PIX_FMT_GBRP
  | .GBRP9BE => .AV_PIX_FMT_GBRP9BE
  | .GBRP9LE => .AV_PIX_FMT_GBRP9LE
  | .GBRP10BE => .AV_PIX_FMT_GBRP10BE
  | .GBRP10LE => .AV_PIX_FMT_GBRP10LE
  | .GBRP16BE => .AV_PIX_FMT_GBRP16BE
  | .GBRP16LE => .AV_PIX_FMT_GBRP16LE
  | .YUVA420P9BE => .AV_PIX_FMT_YUVA420P9BE
  | .YUVA420P9LE => .AV_PIX_FMT_YUVA420P9LE
  | .YUVA422P9BE => .AV_PIX_FMT_YUVA422P9BE
  | .YUVA422P9LE => .AV_PIX_FMT_YUVA422P9LE
  | .YUVA444P9BE => .AV_PIX_FMT_YUVA444P9BE
  | .YUVA444P9LE => .AV_PIX_FMT_YUVA444P9LE
  | .YUVA420P10BE => .AV_PIX_FMT_YUVA420P10BE
  | .YUVA420P10LE => .AV_PIX_FMT_YUVA420P10LE
  | .YUVA422P10BE => .AV_PIX_FMT_YUVA422P10BE
  | .YUVA422P10LE => .AV_PIX_FMT_YUVA422P10LE
  | .YUVA444P10BE => .AV_PIX_FMT_YUVA444P10BE
  | .YUVA444P10LE => .AV_PIX_FMT_YUVA444P10LE
  | .YUVA420P16BE => .AV_PIX_FMT_YUVA420P16BE
  | .YUVA420P16LE => .AV_PIX_FMT_YUVA420P16LE
  | .YUVA422P16BE => .AV_PIX_FMT_YUVA422P16BE
  | .YUVA422P16LE => .AV_PIX_FMT_YUVA422P16LE
  | .YUVA444P16BE => .AV_PIX_FMT_YUVA444P16BE
  | .YUVA444P16LE => .AV_PIX_FMT_YUVA444P16LE
  | .VDPAU => .AV_PIX_FMT_VDPAU
  | .XYZ12LE => .AV_PIX_FMT_XYZ12LE
  | .XYZ12BE => .AV_PIX_FMT_XYZ12BE
  | .NV16 => .AV_PIX_FMT_NV16
  | .NV20LE => .AV_PIX_FMT_NV20LE
  | .NV20BE => .AV_PIX_FMT_NV20BE
  | .RGBA64BE => .AV_PIX_FMT_RGBA64BE
  | .RGBA64LE => .AV_PIX_FMT_RGBA64LE
  | .BGRA64BE => .AV_PIX_FMT_BGRA64BE
  | .BGRA64LE => .AV_PIX_FMT_BGRA64LE
  | .YVYU422 => .AV_PIX_FMT_YVYU422
  | .YA16BE => .AV_PIX_FMT_YA16BE
  | .YA16LE => .AV_PIX_FMT_YA16LE
  | .QSV => .AV_PIX_FMT_QSV
  | .MMAL => .AV_PIX_FMT_MMAL
  | .D3D11VA_VLD => .AV_PIX_FMT_D3D11VA_VLD
  | .CUDA => .AV_PIX_FMT_CUDA
  | .ZRGB => .AV_PIX_FMT_0RGB
  | .RGBZ => .AV_PIX_FMT_RGB0
  | .ZBGR => .AV_PIX_FMT_0BGR
  | .BGRZ => .AV_PIX_FMT_BGR0
  | .YUVA444P => .AV_PIX_FMT_YUVA444P
  | .YUVA422P => .AV_PIX_FMT_YUVA422P
  | .YUV420P12BE => .AV_PIX_FMT_YUV420P12BE
  | .YUV420P12LE => .AV_PIX_FMT_YUV420P12LE
  | .YUV420P14BE => .AV_PIX_FMT_YUV420P14BE
  | .YUV420P14LE => .AV_PIX_FMT_YUV420P14LE
  | .YUV422P12BE => .AV_PIX_FMT_YUV422P12BE
  | .YUV422P12LE => .AV_PIX_FMT_YUV422P12LE
  | .YUV422P14BE => .AV_PIX_FMT_YUV422P14BE
  | .YUV422P14LE => .AV_PIX_FMT_YUV422P14LE
  | .YUV444P12BE => .AV_PIX_FMT_YUV444P12BE
  | .YUV444P12LE => .AV_PIX_FMT_YUV444P12LE
  | .YUV444P14BE => .AV_PIX_FMT_YUV444P14BE
  | .YUV444P14LE => .AV_PIX_FMT_YUV444P14LE
  | .GBRP12BE => .AV_PIX_FMT_GBRP12BE
  | .GBRP12LE => .AV_PIX_FMT_GBRP12LE
  | .GBRP14BE => .AV_PIX_FMT_GBRP14BE
  | .GBRP14LE => .AV_PIX_FMT_GBRP14LE
  | .GBRAP => .AV_PIX_FMT_GBRAP
  | .GBRAP16BE => .AV_PIX_FMT_GBRAP16BE
  | .GBRAP16LE => .AV_PIX_FMT_GBRAP16LE
  | .YUVJ411P => .AV_PIX_FMT_YUVJ411P
  | .BAYER_BGGR8 => .AV_PIX_FMT_BAYER_BGGR8
  | .BAYER_RGGB8 => .AV_PIX_FMT_BAYER_RGGB8
  | .BAYER_GBRG8 => .AV_PIX_FMT_BAYER_GBRG8
  | .BAYER_GRBG8 => .AV_PIX_FMT_BAYER_GRBG8
  | .BAYER_BGGR16LE => .AV_PIX_FMT_BAYER_BGGR16LE
  | .BAYER_BGGR16BE => .AV_PIX_FMT_BAYER_BGGR16BE
  | .BAYER_RGGB16LE => .AV_PIX_FMT_BAYER_RGGB16LE
  | .BAYER_RGGB16BE => .AV_PIX_FMT_BAYER_RGGB16BE
  | .BAYER_GBRG16LE => .AV_PIX_FMT_BAYER_GBRG16LE
  | .BAYER_GBRG16BE => .AV_PIX_FMT_BAYER_GBRG16BE
  | .BAYER_GRBG16LE => .AV_PIX_FMT_BAYER_GRBG16LE
  | .BAYER_GRBG16BE => .AV_PIX_FMT_BAYER_GRBG16BE
  | .YUV440P10LE => .AV_PIX_FMT_YUV440P10LE
  | .YUV440P10BE => .AV_PIX_FMT_YUV440P10BE
  | .YUV440P12LE => .AV_PIX_FMT_YUV440P12LE
  | .YUV440P12BE => .AV_PIX_FMT_YUV440P12BE
  | .AYUV64LE => .AV_PIX_FMT_AYUV64LE
  | .AYUV64BE => .AV_PIX_FMT_AYUV64BE
  | .VIDEOTOOLBOX => .AV_PIX_FMT_VIDEOTOOLBOX
  | .XVMC => .AV_PIX_FMT_XVMC
  | .RGB32 => AV_PIX_FMT_RGB32
  | .RGB32_1 => AV_PIX_FMT_RGB32_1
  | .BGR32 => AV_PIX_FMT_BGR32
  | .BGR32_1 => AV_PIX_FMT_BGR32_1
  | .ZRGB32 => AV_PIX_FMT_0RGB32
  | .ZBGR32 => AV_PIX_FMT_0BGR32
  | .GRAY16 => AV_PIX_FMT_GRAY16
  | .YA16 => AV_PIX_FMT_YA16
  | .RGB48 => AV_PIX_FMT_RGB48
  | .RGB565 => AV_PIX_FMT_RGB565
  | .RGB555 => AV_PIX_FMT_RGB555
  | .RGB444 => AV_PIX_FMT_RGB444
  | .BGR48 => AV_PIX_FMT_BGR48
  | .BGR565 => AV_PIX_FMT_BGR565
  | .BGR555 => AV_PIX_FMT_BGR555
  | .BGR444 => AV_PIX_FMT_BGR444
  | .YUV420P9 => AV_PIX_FMT_YUV420P9
  | .YUV422P9 => AV_PIX_FMT_YUV422P9
  | .YUV444P9 => AV_PIX_FMT_YUV444P9
  | .YUV420P10 => AV_PIX_FMT_YUV420P10
  | .YUV422P10 => AV_PIX_FMT_YUV422P10
  | .YUV440P10 => AV_PIX_FMT_YUV440P10
  | .YUV444P10 => AV_PIX_FMT_YUV444P10
  | .YUV420P12 => AV_PIX_FMT_YUV420P12
  | .YUV422P12 => AV_PIX_FMT_YUV422P12
  | .YUV440P12 => AV_PIX_FMT_YUV440P12
  | .YUV444P12 => AV_PIX_FMT_YUV444P12
  | .YUV420P14 => AV_PIX_FMT_YUV420P14
  | .YUV422P14 => AV_PIX_FMT_YUV422P14
  | .YUV444P14 => AV_PIX_FMT_YUV444P14
  | .YUV420P16 => AV_PIX_FMT_YUV420P16
  | .YUV422P16 => AV_PIX_FMT_YUV422P16
  | .YUV444P16 => AV_PIX_FMT_YUV444P16
  | .GBRP9 => AV_PIX_FMT_GBRP9
  | .GBRP10 => AV_PIX_FMT_GBRP10
  | .GBRP12 => AV_PIX_FMT_GBRP12
  | .GBRP14 => AV_PIX_FMT_GBRP14
  | .GBRP16 => AV_PIX_FMT_GBRP16
  | .GBRAP16 => AV_PIX_FMT_GBRAP16
  | .BAYER_BGGR16 => AV_PIX_FMT_BAYER_BGGR16
  | .BAYER_RGGB16 => AV_PIX_FMT_BAYER_RGGB16
  | .BAYER_GBRG16 => AV_PIX_FMT_BAYER_GBRG16
  | .BAYER_GRBG16 => AV_PIX_FMT_BAYER_GRBG16
  | .YUVA420P9 => AV_PIX_FMT_YUVA420P9
  | .YUVA422P9 => AV_PIX_FMT_YUVA422P9
  | .YUVA444P9 => AV_PIX_FMT_YUVA444P9
  | .YUVA420P10 => AV_PIX_FMT_YUVA420P10
  | .YUVA422P10 => AV_PIX_FMT_YUVA422P10
  | .YUVA444P10 => AV_PIX_FMT_YUVA444P10
  | .YUVA420P16 => AV_PIX_FMT_YUVA420P16
  | .YUVA422P16 => AV_PIX_FMT_YUVA422P16
  | .YUVA444P16 => AV_PIX_FMT_YUVA444P16
  | .XYZ12 => AV_PIX_FMT_XYZ12
  | .NV20 => AV_PIX_FMT_NV20
  | .AYUV64 => AV_PIX_FMT_AYUV64
  | .P010LE => .AV_PIX_FMT_P010LE
  | .P010BE => .AV_PIX_FMT_P010BE
  | .GBRAP12BE => .AV_PIX_FMT_GBRAP12BE
  | .GBRAP12LE => .AV_PIX_FMT_GBRAP12LE
  | .GBRAP10LE => .AV_PIX_FMT_GBRAP10LE
  | .GBRAP10BE => .AV_PIX_FMT_GBRAP10BE
  | .MEDIACODEC => .AV_PIX_FMT_MEDIACODEC
  | .GRAY12BE => .AV_PIX_FMT_GRAY12BE
  | .GRAY12LE => .AV_PIX_FMT_GRAY12LE
  | .GRAY10BE => .AV_PIX_FMT_GRAY10BE
  | .GRAY10LE => .AV_PIX_FMT_GRAY10LE
  | .P016LE => .AV_PIX_FMT_P016LE
  | .P016BE => .AV_PIX_FMT_P016BE
  | .D3D11 => .AV_PIX_FMT_D3D11
  | .GRAY9BE => .AV_PIX_FMT_GRAY9BE
  | .GRAY9LE => .AV_PIX_FMT_GRAY9LE
  | .GBRPF32BE => .AV_PIX_FMT_GBRPF32BE
  | .GBRPF32LE => .AV_PIX_FMT_GBRPF32LE
  | .GBRAPF32BE => .AV_PIX_FMT_GBRAPF32BE
  | .GBRAPF32LE => .AV_PIX_FMT_GBRAPF32LE
  | .DRM_PRIME => .AV_PIX_FMT_DRM_PRIME
  | .OPENCL => .AV_PIX_FMT_OPENCL
  | .GRAY14BE => .AV_PIX_FMT_GRAY14BE
  | .GRAY14LE => .AV_PIX_FMT_GRAY14LE
  | .GRAYF32BE => .AV_PIX_FMT_GRAYF32BE
  | .GRAYF32LE => .AV_PIX_FMT_GRAYF32LE
  | .YUVA422P12BE => .AV_PIX_FMT_YUVA422P12BE
  | .YUVA422P12LE => .AV_PIX_FMT_YUVA422P12LE
  | .YUVA444P12BE => .AV_PIX_FMT_YUVA444P12BE
  | .YUVA444P12LE => .AV_PIX_FMT_YUVA444P12LE
  | .NV24 => .AV_PIX_FMT_NV24
  | .NV42 => .AV_PIX_FMT_NV42
  | .VULKAN => .AV_PIX_FMT_VULKAN
  | .Y210BE => .AV_PIX_FMT_Y210BE
  | .Y210LE => .AV_PIX_FMT_Y210LE
  | .X2RGB10LE => .AV_PIX_FMT_X2RGB10LE
  | .X2RGB10BE => .AV_PIX_FMT_X2RGB10BE


/-! ## Pointers and heaps

A borrowed view is a pointer value; reads through the pointer are made
explicit by a heap function from pointers to the pointed-to records. -/

/-- Raw pointer values. -/
abbrev Ptr := Nat

/-! ## Errors, media types and the `Codec` view (`src/codec/codec.rs`) -/

/-- Modelled from the spec: the recoverable error taxonomy's narrowing
error `InvalidData` (`util/error.rs` is outside the analysed sources). -/
inductive Error where
  | InvalidData
  deriving DecidableEq, Repr

/-- Native `AVMediaType` constants.  Modelled from the spec: the
media-type enum bridge lives in `util/media.rs`, outside the analysed
sources.  The trailing underscore on the audio constant avoids a clash
with reserved suffixes, as with the `type_` fields. -/
inductive AVMediaType where
  | AVMEDIA_TYPE_UNKNOWN
  | AVMEDIA_TYPE_VIDEO
  | AVMEDIA_TYPE_AUDIO_
  | AVMEDIA_TYPE_DATA
  | AVMEDIA_TYPE_SUBTITLE
  | AVMEDIA_TYPE_ATTACHMENT
  deriving DecidableEq, Repr

/-- Modelled from the spec: the safe `media::Type` enumeration
(`util/media.rs` is outside the analysed sources). -/
inductive MediaType where
  | Unknown
  | Video
  | Audio
  | Data
  | Subtitle
  | Attachment
  deriving DecidableEq, Repr

/-- Modelled from the spec: `impl From<AVMediaType> for media::Type`, the
evident variant-for-variant enum bridge. -/
def MediaType.fromNative : AVMediaType → MediaType
  | .AVMEDIA_TYPE_UNKNOWN => .Unknown
  | .AVMEDIA_TYPE_VIDEO => .Video
  | .AVMEDIA_TYPE_AUDIO_ => .Audio
  | .AVMEDIA_TYPE_DATA => .Data
  | .AVMEDIA_TYPE_SUBTITLE => .Subtitle
  | .AVMEDIA_TYPE_ATTACHMENT => .Attachment

/-- The fields of the native `AVCodec` record read by the analysed
accessors; a null `long_name` pointer is `none`. -/
structure AVCodec where
  long_name : Option (List Char)
  type_ : AVMediaType

/-- A heap of `AVCodec` records. -/
abbrev CodecHeap := Ptr → AVCodec

/-- `Codec`, a wrapper around an `AVCodec` pointer. -/
structure Codec where
  ptr : Ptr
  deriving DecidableEq, Repr

/-- `Codec::medium`: reads `type_` through the pointer and bridges it. -/
def Codec.medium (h : CodecHeap) (c : Codec) : MediaType :=
  MediaType.fromNative (h c.ptr).type_

/-- `Codec::description`: reads `long_name`, yielding `""` when the
pointer is null. -/
def Codec.description (h : CodecHeap) (c : Codec) : List Char :=
  match (h c.ptr).long_name with
  | none => []
  | some s => s

/-- Modelled from the spec: the `Video` narrowing view wraps the codec it
was narrowed from (`codec/encoder/video.rs` is outside the analysed
sources; the spec requires the view to reference the same codec). -/
structure Video where
  codec : Codec
  deriving DecidableEq, Repr

/-- `Video::new`. -/
def Video.new (c : Codec) : Video := ⟨c⟩

/-- Modelled from the spec: the `Audio` narrowing view, as for `Video`. -/
structure Audio where
  codec : Codec
  deriving DecidableEq, Repr

/-- `Audio::new`. -/
def Audio.new (c : Codec) : Audio := ⟨c⟩

/-- `Codec::video`: narrow to the video view, or `InvalidData`. -/
def Codec.video (h : CodecHeap) (c : Codec) : Except Error Video :=
  if Codec.medium h c = MediaType.Video then Except.ok (Video.new c)
  else Except.error Error.InvalidData

/-- `Codec::audio`: narrow to the audio view, or `InvalidData`. -/
def Codec.audio (h : CodecHeap) (c : Codec) : Except Error Audio :=
  if Codec.medium h c = MediaType.Audio then Except.ok (Audio.new c)
  else Except.error Error.InvalidData

/-! ## Profile iterator (`src/codec/codec.rs`, `ProfileIter`) -/

/-- Native sentinel constant `FF_PROFILE_UNKNOWN`, per the native ABI. -/
def FF_PROFILE_UNKNOWN : Int := -99

/-- Modelled from the spec: codec identifiers, the context captured at
iterator construction (`codec/id.rs` is outside the analysed sources);
only distinguishability of ids matters here.  Named `CodecId` because `Id`
is taken in Lean. -/
inductive CodecId where
  | H264
  | AAC
  | OtherId
  deriving DecidableEq, Repr

/-- Modelled from the spec: a decoded profile entry combines the codec id
captured at construction with the raw profile integer
(`codec/profile.rs` is outside the analysed sources). -/
abbrev Profile := CodecId × Int

/-- Modelled from the spec: `Profile::from((id, profile))`. -/
def Profile.fromPair (p : CodecId × Int) : Profile := p

/-- The field of the native `AVProfile` record read by the iterator. -/
structure AVProfile where
  profile : Int
  deriving DecidableEq, Repr

/-- `ProfileIter`: the captured codec id, the profile array (a function
from array index to record, standing for the pointer arithmetic
`ptr.offset`), and the cursor. -/
structure ProfileIter where
  id : CodecId
  mem : Nat → AVProfile
  pos : Nat

/-- `ProfileIter::new` starts at the given array pointer. -/
def ProfileIter.new (id : CodecId) (mem : Nat → AVProfile) : ProfileIter :=
  ⟨id, mem, 0⟩

/-- `Iterator::next` for `ProfileIter`: on the sentinel return `None`
without advancing; otherwise decode the entry and advance the cursor. -/
def ProfileIter.next (it : ProfileIter) : Option Profile × ProfileIter :=
  if (it.mem it.pos).profile = FF_PROFILE_UNKNOWN then (none, it)
  else (some (Profile.fromPair (it.id, (it.mem it.pos).profile)),
        { it with pos := it.pos + 1 })

/-- The results of the first `n` calls to `next`, in order. -/
def ProfileIter.collect : ProfileIter → Nat → List (Option Profile)
  | _, 0 => []
  | it, n + 1 => it.next.1 :: it.next.2.collect n

/-! ## Input format view (`src/format/format/input.rs`) -/

/-- The fields of the native `AVInputFormat` record read by the analysed
accessors; null string pointers are `none`. -/
structure AVInputFormat where
  long_name : Option (List Char)
  extensions : Option (List Char)
  mime_type : Option (List Char)

/-- A heap of `AVInputFormat` records. -/
abbrev FormatHeap := Ptr → AVInputFormat

/-- `Input`, a wrapper around an `AVInputFormat` pointer. -/
structure Input where
  ptr : Ptr
  deriving DecidableEq, Repr

/-- `str::split(',')` of the Rust standard library: the maximal
comma-free segments in order, empty segments preserved, and the empty
string splitting to one empty segment. -/
def splitComma : List Char → List (List Char)
  | [] => [[]]
  | c :: rest =>
    if c = ',' then [] :: splitComma rest
    else
      match splitComma rest with
      | [] => [[c]]
      | p :: ps => (c :: p) :: ps

/-- `Input::extensions`: empty for a null pointer, otherwise the comma
split of the native string. -/
def Input.extensions (h : FormatHeap) (f : Input) : List (List Char) :=
  match (h f.ptr).extensions with
  | none => []
  | some s => splitComma s

/-- `Input::mime_types`: empty for a null pointer, otherwise the comma
split of the native string. -/
def Input.mime_types (h : FormatHeap) (f : Input) : List (List Char) :=
  match (h f.ptr).mime_type with
  | none => []
  | some s => splitComma s

/-- `Input::description` reads `long_name` through `CStr::from_ptr` with
no null check; on a null pointer the read has no defined result, which
the embedding records as `none`. -/
def Input.description (h : FormatHeap) (f : Input) : Option (List Char) :=
  (h f.ptr).long_name

/-! ## Subtitle rectangle view (`src/codec/subtitle/rect.rs`) -/

/-- Native `AVSubtitleType` discriminants.  Modelled from the spec: the
subtitle `Type` bridge lives in `codec/subtitle/mod.rs`, outside the
analysed sources. -/
inductive AVSubtitleType where
  | SUBTITLE_NONE
  | SUBTITLE_BITMAP
  | SUBTITLE_TEXT
  | SUBTITLE_ASS
  deriving DecidableEq, Repr

/-- Modelled from the spec: the safe subtitle `Type` enumeration
(`codec/subtitle/mod.rs` is outside the analysed sources), named
`SubtitleType` here. -/
inductive SubtitleType where
  | None
  | Bitmap
  | Text
  | Ass
  deriving DecidableEq, Repr

/-- Modelled from the spec: the subtitle enum bridge, mapping each native
discriminant to the like-named safe variant. -/
def SubtitleType.fromNative : AVSubtitleType → SubtitleType
  | .SUBTITLE_NONE => .None
  | .SUBTITLE_BITMAP => .Bitmap
  | .SUBTITLE_TEXT => .Text
  | .SUBTITLE_ASS => .Ass

/-- The fields of the native `AVSubtitleRect` record read by the
dispatching constructor. -/
structure AVSubtitleRect where
  type_ : AVSubtitleType
  flags : Int
  deriving DecidableEq, Repr

/-- A heap of `AVSubtitleRect` records. -/
abbrev RectHeap := Ptr → AVSubtitleRect

/-- The `Bitmap` sub-view: wraps the same rect pointer. -/
structure Bitmap where
  ptr : Ptr
  deriving DecidableEq, Repr

/-- `Bitmap::wrap`. -/
def Bitmap.wrap (p : Ptr) : Bitmap := ⟨p⟩

/-- `Bitmap::as_ptr`. -/
def Bitmap.as_ptr (b : Bitmap) : Ptr := b.ptr

/-- The `Text` sub-view: wraps the same rect pointer. -/
structure Text where
  ptr : Ptr
  deriving DecidableEq, Repr

/-- `Text::wrap`. -/
def Text.wrap (p : Ptr) : Text := ⟨p⟩

/-- `Text::as_ptr`. -/
def Text.as_ptr (t : Text) : Ptr := t.ptr

/-- The `Ass` sub-view: wraps the same rect pointer. -/
structure Ass where
  ptr : Ptr
  deriving DecidableEq, Repr

/-- `Ass::wrap`. -/
def Ass.wrap (p : Ptr) : Ass := ⟨p⟩

/-- `Ass::as_ptr`. -/
def Ass.as_ptr (a : Ass) : Ptr := a.ptr

/-- The `Rect` tagged union over the sub-view types. -/
inductive Rect where
  | None (ptr : Ptr)
  | Bitmap (b : Bitmap)
  | Text (t : Text)
  | Ass (a : Ass)
  deriving DecidableEq, Repr

/-- `Rect::wrap`: read the discriminant, bridge it, and construct the
corresponding sub-view over the same pointer. -/
def Rect.wrap (h : RectHeap) (p : Ptr) : Rect :=
  match SubtitleType.fromNative (h p).type_ with
  | .None => Rect.None p
  | .Bitmap => Rect.Bitmap (Bitmap.wrap p)
  | .Text => Rect.Text (Text.wrap p)
  | .Ass => Rect.Ass (Ass.wrap p)

/-- `Rect::as_ptr`: the wrapped pointer, whichever variant is active. -/
def Rect.as_ptr : Rect → Ptr
  | .None p => p
  | .Bitmap b => b.as_ptr
  | .Text t => t.as_ptr
  | .Ass a => a.as_ptr

/-! ## Side-data views (`src/codec/packet/side_data.rs`,
`src/util/frame/side_data.rs`) -/

/-- Byte memory backing side-data buffers. -/
abbrev ByteMem := Nat → UInt8

/-- The fields of the native `AVPacketSideData` record read by the
analysed accessors: the discriminant, the data pointer and the size. -/
structure AVPacketSideData where
  type_ : AVPacketSideDataType
  dataPtr : Nat
  size : Nat

/-- A heap of `AVPacketSideData` records. -/
abbrev PacketSideHeap := Ptr → AVPacketSideData

/-- The packet `SideData` borrowed view. -/
structure PacketSideData where
  ptr : Ptr
  deriving DecidableEq, Repr

/-- Packet `SideData::kind`. -/
def PacketSideData.kind (h : PacketSideHeap) (sd : PacketSideData) :
    PacketSideDataType :=
  PacketSideDataType.fromNative (h sd.ptr).type_

/-- Packet `SideData::data`: `slice::from_raw_parts(data, size)`, the
`size` bytes starting at the data pointer. -/
def PacketSideData.data (h : PacketSideHeap) (mem : ByteMem)
    (sd : PacketSideData) : List UInt8 :=
  (List.range (h sd.ptr).size).map (fun i => mem ((h sd.ptr).dataPtr + i))

/-- The fields of the native `AVFrameSideData` record read by the
analysed accessors. -/
structure AVFrameSideData where
  type_ : AVFrameSideDataType
  dataPtr : Nat
  size : Nat

/-- A heap of `AVFrameSideData` records. -/
abbrev FrameSideHeap := Ptr → AVFrameSideData

/-- The frame `SideData` borrowed view. -/
structure FrameSideData where
  ptr : Ptr
  deriving DecidableEq, Repr

/-- Frame `SideData::kind`. -/
def FrameSideData.kind (h : FrameSideHeap) (sd : FrameSideData) :
    FrameSideDataType :=
  FrameSideDataType.fromNative (h sd.ptr).type_

/-- Frame `SideData::data`: `slice::from_raw_parts(data, size)`. -/
def FrameSideData.data (h : FrameSideHeap) (mem : ByteMem)
    (sd : FrameSideData) : List UInt8 :=
  (List.range (h sd.ptr).size).map (fun i => mem ((h sd.ptr).dataPtr + i))

/-! ## Integer-level decoding for the primaries domain

The source conversion for color primaries takes the closed native enum,
not a raw integer.  To reason about raw 32-bit inputs, the integer value
of each native constant (fixed by the native ABI, which the spec makes a
hard compatibility surface) and the partial decoding of an integer into a
native constant are made explicit. -/

/-- The integer discriminant of each `AVColorPrimaries` constant, per the
native ABI (`AVCOL_PRI_RESERVED0 = 0` through `AVCOL_PRI_SMPTE432 = 12`,
`AVCOL_PRI_EBU3213 = 22`, `AVCOL_PRI_NB = 23`). -/
def AVColorPrimaries.discriminant : AVColorPrimaries → Int
  | .AVCOL_PRI_RESERVED0 => 0
  | .AVCOL_PRI_BT709 => 1
  | .AVCOL_PRI_UNSPECIFIED => 2
  | .AVCOL_PRI_RESERVED => 3
  | .AVCOL_PRI_BT470M => 4
  | .AVCOL_PRI_BT470BG => 5
  | .AVCOL_PRI_SMPTE170M => 6
  | .AVCOL_PRI_SMPTE240M => 7
  | .AVCOL_PRI_FILM => 8
  | .AVCOL_PRI_BT2020 => 9
  | .AVCOL_PRI_SMPTE428 => 10
  | .AVCOL_PRI_SMPTE431 => 11
  | .AVCOL_PRI_SMPTE432 => 12
  | .AVCOL_PRI_EBU3213 => 22
  | .AVCOL_PRI_NB => 23

/-- Every `AVColorPrimaries` constant. -/
def AVColorPrimaries.all : List AVColorPrimaries :=
  [.AVCOL_PRI_RESERVED0, .AVCOL_PRI_BT709, .AVCOL_PRI_UNSPECIFIED,
   .AVCOL_PRI_RESERVED, .AVCOL_PRI_BT470M, .AVCOL_PRI_BT470BG,
   .AVCOL_PRI_SMPTE170M, .AVCOL_PRI_SMPTE240M, .AVCOL_PRI_FILM,
   .AVCOL_PRI_BT2020, .AVCOL_PRI_SMPTE428, .AVCOL_PRI_SMPTE431,
   .AVCOL_PRI_SMPTE432, .AVCOL_PRI_EBU3213, .AVCOL_PRI_NB]

/-- Decode a raw integer into a native `AVColorPrimaries` constant: only
the declared constants are representable, every other integer decodes to
nothing. -/
def AVColorPrimaries.ofDiscriminant (n : Int) : Option AVColorPrimaries :=
  AVColorPrimaries.all.find? (fun c => c.discriminant = n)

/-- The primaries conversion at the raw-integer level: the source match
has no wildcard arm, so integers outside the declared constants have no
conversion result. -/
def Primaries.fromDiscriminant (n : Int) : Option Primaries :=
  (AVColorPrimaries.ofDiscriminant n).map Primaries.fromNative

/-! ## Round-trip lemmas for the enum bridges -/

/-- Primaries: native-to-safe inverts safe-to-native on every variant. -/
theorem primaries_from_to (v : Primaries) :
    Primaries.fromNative v.toNative = v := by cases v <;> rfl

/-- Range: native-to-safe inverts safe-to-native on every variant. -/
theorem range_from_to (v : Range) :
    Range.fromNative v.toNative = v := by cases v <;> rfl

/-- Space: native-to-safe inverts safe-to-native on every variant. -/
theorem space_from_to (v : Space) :
    Space.fromNative v.toNative = v := by cases v <;> rfl

/-- Transfer characteristic: native-to-safe inverts safe-to-native on
every variant. -/
theorem transfer_from_to (v : TransferCharacteristic) :
    TransferCharacteristic.fromNative v.toNative = v := by cases v <;> rfl

/-- Rounding: native-to-safe inverts safe-to-native on every variant. -/
theorem rounding_from_to (v : Rounding) :
    Rounding.fromNative v.toNative = v := by cases v <;> rfl

/-- Packet side-data type: native-to-safe inverts safe-to-native on every
variant. -/
theorem packet_side_from_to (v : PacketSideDataType) :
    PacketSideDataType.fromNative v.toNative = v := by cases v <;> rfl

/-- Frame side-data type: native-to-safe inverts safe-to-native on every
variant. -/
theorem frame_side_from_to (v : FrameSideDataType) :
    FrameSideDataType.fromNative v.toNative = v := by cases v <;> rfl

/-- Option type: native-to-safe inverts safe-to-native on every variant. -/
theorem option_type_from_to (v : OptionType) :
    OptionType.fromNative v.toNative = v := by cases v <;> rfl

/-- Decision: native-to-safe inverts safe-to-native on every variant. -/
theorem decision_from_to (v : Decision) :
    Decision.fromNative v.toNative = v := by cases v <;> decide

/-- Pixel: the composite `fromNative ∘ toNative ∘ fromNative` equals
`fromNative` — the round trip holds on every variant the forward
conversion can produce (the alias variants such as `Pixel.RGB32` are not
produced by it). -/
theorem Pixel.from_to_from (n : AVPixelFormat) :
    Pixel.fromNative (Pixel.fromNative n).toNative = Pixel.fromNative n := by
  cases n <;> rfl

/-- C1: for every safe-enum domain (color primaries, color range, color
space, transfer characteristic, rounding mode, packet side-data type,
frame side-data type, option type, macroblock decision, pixel format) and
every safe variant `v` producible by the native-to-safe conversion on
some legal native discriminant, converting `v` back to its native value
and then to a safe variant again yields `v`. -/
theorem c1_roundtrip :
    (∀ v : Primaries, (∃ n, Primaries.fromNative n = v) →
        Primaries.fromNative v.toNative = v) ∧
    (∀ v : Range, (∃ n, Range.fromNative n = v) →
        Range.fromNative v.toNative = v) ∧
    (∀ v : Space, (∃ n, Space.fromNative n = v) →
        Space.fromNative v.toNative = v) ∧
    (∀ v : TransferCharacteristic,
        (∃ n, TransferCharacteristic.fromNative n = v) →
        TransferCharacteristic.fromNative v.toNative = v) ∧
    (∀ v : Rounding, (∃ n, Rounding.fromNative n = v) →
        Rounding.fromNative v.toNative = v) ∧
    (∀ v : PacketSideDataType, (∃ n, PacketSideDataType.fromNative n = v) →
        PacketSideDataType.fromNative v.toNative = v) ∧
    (∀ v : FrameSideDataType, (∃ n, FrameSideDataType.fromNative n = v) →
        FrameSideDataType.fromNative v.toNative = v) ∧
    (∀ v : OptionType, (∃ n, OptionType.fromNative n = v) →
        OptionType.fromNative v.toNative = v) ∧
    (∀ v : Decision, (∃ n, Decision.fromNative n = v) →
        Decision.fromNative v.toNative = v) ∧
    (∀ v : Pixel, (∃ n, Pixel.fromNative n = v) →
        Pixel.fromNative v.toNative = v) := by
  refine ⟨?_, ?_, ?_, ?_, ?_, ?_, ?_, ?_, ?_, ?_⟩
  · exact fun v _ => primaries_from_to v
  · exact fun v _ => range_from_to v
  · exact fun v _ => space_from_to v
  · exact fun v _ => transfer_from_to v
  · exact fun v _ => rounding_from_to v
  · exact fun v _ => packet_side_from_to v
  · exact fun v _ => frame_side_from_to v
  · exact fun v _ => option_type_from_to v
  · exact fun v _ => decision_from_to v
  · rintro v ⟨n, rfl⟩
    exact Pixel.from_to_from n

/-- Witness for C1, instantiating every domain at a producible variant. -/
theorem c1_roundtrip_witness :
    Primaries.fromNative (Primaries.toNative Primaries.BT709) =
      Primaries.BT709 ∧
    Range.fromNative (Range.toNative Range.JPEG) = Range.JPEG ∧
    Space.fromNative (Space.toNative Space.BT709) = Space.BT709 ∧
    TransferCharacteristic.fromNative
      (TransferCharacteristic.toNative TransferCharacteristic.SMPTE2084) =
      TransferCharacteristic.SMPTE2084 ∧
    Rounding.fromNative (Rounding.toNative Rounding.Up) = Rounding.Up ∧
    PacketSideDataType.fromNative
      (PacketSideDataType.toNative PacketSideDataType.Palette) =
      PacketSideDataType.Palette ∧
    FrameSideDataType.fromNative
      (FrameSideDataType.toNative FrameSideDataType.PanScan) =
      FrameSideDataType.PanScan ∧
    OptionType.fromNative (OptionType.toNative OptionType.Flags) =
      OptionType.Flags ∧
    Decision.fromNative (Decision.toNative Decision.Bits) = Decision.Bits ∧
    Pixel.fromNative (Pixel.toNative Pixel.YUV420P) = Pixel.YUV420P :=
  ⟨c1_roundtrip.1 _ ⟨.AVCOL_PRI_BT709, rfl⟩,
   c1_roundtrip.2.1 _ ⟨.AVCOL_RANGE_JPEG, rfl⟩,
   c1_roundtrip.2.2.1 _ ⟨.AVCOL_SPC_BT709, rfl⟩,
   c1_roundtrip.2.2.2.1 _ ⟨.AVCOL_TRC_SMPTE2084, rfl⟩,
   c1_roundtrip.2.2.2.2.1 _ ⟨.AV_ROUND_UP, rfl⟩,
   c1_roundtrip.2.2.2.2.2.1 _ ⟨.AV_PKT_DATA_PALETTE, rfl⟩,
   c1_roundtrip.2.2.2.2.2.2.1 _ ⟨.AV_FRAME_DATA_PANSCAN, rfl⟩,
   c1_roundtrip.2.2.2.2.2.2.2.1 _ ⟨.AV_OPT_TYPE_FLAGS, rfl⟩,
   c1_roundtrip.2.2.2.2.2.2.2.2.1 _ ⟨(1 : Int), by decide⟩,
   c1_roundtrip.2.2.2.2.2.2.2.2.2 _ ⟨.AV_PIX_FMT_YUV420P, rfl⟩⟩

/-- C2 counterexample: for the color-primaries domain the NB sentinel and
the unspecified value do NOT convert to the same safe variant
(`AVCOL_PRI_NB` maps to `Primaries.Reserved0` while
`AVCOL_PRI_UNSPECIFIED` maps to `Primaries.Unspecified`). -/
theorem c2_fallback_counterexample :
    Primaries.fromNative AVColorPrimaries.AVCOL_PRI_NB ≠
      Primaries.fromNative AVColorPrimaries.AVCOL_PRI_UNSPECIFIED := by
  decide

/-- C2 amended: the NB sentinel maps to the same safe variant as the
unspecified value in the color-range and color-space domains, but in the
color-primaries and transfer-characteristic domains it maps to
`Reserved0`, not to the `Unspecified` variant, and in the packet
side-data domain it maps to its own dedicated variant `DataNb`; the
pixel-format domain maps its NB sentinel to the fallback `Pixel::None`,
the same variant as `AV_PIX_FMT_NONE`. -/
theorem c2_fallback_sentinels :
    Range.fromNative AVColorRange.AVCOL_RANGE_NB =
      Range.fromNative AVColorRange.AVCOL_RANGE_UNSPECIFIED ∧
    Space.fromNative AVColorSpace.AVCOL_SPC_NB =
      Space.fromNative AVColorSpace.AVCOL_SPC_UNSPECIFIED ∧
    Primaries.fromNative AVColorPrimaries.AVCOL_PRI_NB =
      Primaries.Reserved0 ∧
    TransferCharacteristic.fromNative
      AVColorTransferCharacteristic.AVCOL_TRC_NB =
      TransferCharacteristic.Reserved0 ∧
    TransferCharacteristic.fromNative
      AVColorTransferCharacteristic.AVCOL_TRC_NB ≠
      TransferCharacteristic.fromNative
        AVColorTransferCharacteristic.AVCOL_TRC_UNSPECIFIED ∧
    PacketSideDataType.fromNative AVPacketSideDataType.AV_PKT_DATA_NB =
      PacketSideDataType.DataNb ∧
    Pixel.fromNative AVPixelFormat.AV_PIX_FMT_NB =
      Pixel.fromNative AVPixelFormat.AV_PIX_FMT_NONE := by
  refine ⟨rfl, rfl, rfl, rfl, by decide, rfl, rfl⟩

/-! ## C3: totality of the native-to-safe conversions -/

/-- Every `AVColorPrimaries` constant is in the enumeration list. -/
theorem AVColorPrimaries.mem_all (v : AVColorPrimaries) :
    v ∈ AVColorPrimaries.all := by
  cases v <;> simp [AVColorPrimaries.all]

/-- C3 counterexample: the color-primaries conversion has no arm for the
raw integer `1000` — the conversion yields no result at all there, rather
than a fallback variant, because its domain is the closed native enum. -/
theorem c3_totality_counterexample :
    Primaries.fromDiscriminant 1000 = none := by decide

/-- C3 amended: the one conversion that takes a raw `c_int` — macroblock
decision — is total over all integers and returns the fallback
`Decision::Simple` for every value different from the known
`FF_MB_DECISION_*` constants; each other domain's conversion is a total
exhaustive match over its closed native enum type (every representable
native discriminant converts, shown at the raw-integer level for the
primaries domain), but a raw integer outside the declared constants is
not representable in that domain and receives no fallback. -/
theorem c3_totality :
    (∀ n : Int, n ≠ FF_MB_DECISION_SIMPLE → n ≠ FF_MB_DECISION_BITS →
        n ≠ FF_MB_DECISION_RD → Decision.fromNative n = Decision.Simple) ∧
    (∀ v : AVColorPrimaries,
        Primaries.fromDiscriminant v.discriminant =
          some (Primaries.fromNative v)) ∧
    (∀ n : Int, Primaries.fromDiscriminant n = none ↔
        ∀ v : AVColorPrimaries, v.discriminant ≠ n) := by
  refine ⟨?_, ?_, ?_⟩
  · intro n h0 h1 h2
    unfold Decision.fromNative
    rw [if_neg h0, if_neg h1, if_neg h2]
  · intro v
    cases v <;> decide
  · intro n
    unfold Primaries.fromDiscriminant AVColorPrimaries.ofDiscriminant
    rw [Option.map_eq_none', List.find?_eq_none]
    constructor
    · intro h v
      have := h v (AVColorPrimaries.mem_all v)
      simpa using this
    · intro h v _
      simpa using h v

/-- Witness for C3 at the raw integer `1000`. -/
theorem c3_totality_witness :
    ((1000 : Int) ≠ FF_MB_DECISION_SIMPLE ∧
     (1000 : Int) ≠ FF_MB_DECISION_BITS ∧
     (1000 : Int) ≠ FF_MB_DECISION_RD) ∧
    Decision.fromNative 1000 = Decision.Simple :=
  ⟨⟨by decide, by decide, by decide⟩,
   c3_totality.1 1000 (by decide) (by decide) (by decide)⟩

/-! ## C4: sentinel-terminated profile iteration -/

/-- With the cursor on the sentinel, `next` yields nothing and leaves the
iterator unchanged. -/
theorem ProfileIter.next_at_sentinel (it : ProfileIter)
    (h : (it.mem it.pos).profile = FF_PROFILE_UNKNOWN) :
    it.next = (none, it) := by
  simp [ProfileIter.next, h]

/-- With the cursor on the sentinel, every run of `next` calls yields
only `none`. -/
theorem ProfileIter.collect_at_sentinel (it : ProfileIter)
    (h : (it.mem it.pos).profile = FF_PROFILE_UNKNOWN) (m : Nat) :
    it.collect m = List.replicate m none := by
  induction m with
  | zero => rfl
  | succ m ih =>
    simp [ProfileIter.collect, ProfileIter.next_at_sentinel it h, ih,
      List.replicate_succ]

/-- The run of an iterator over an array whose sentinel sits `k` entries
ahead of the cursor: the `k` decoded entries in order, then only `none`. -/
theorem ProfileIter.collect_entries (id : CodecId) (mem : Nat → AVProfile) :
    ∀ (k p m : Nat),
      (mem (p + k)).profile = FF_PROFILE_UNKNOWN →
      (∀ i, i < k → (mem (p + i)).profile ≠ FF_PROFILE_UNKNOWN) →
      ProfileIter.collect ⟨id, mem, p⟩ (k + m) =
        ((List.range k).map (fun i => some (id, (mem (p + i)).profile))) ++
          List.replicate m none := by
  intro k
  induction k with
  | zero =>
    intro p m hs _
    simpa using
      ProfileIter.collect_at_sentinel ⟨id, mem, p⟩ (by simpa using hs) m
  | succ k ih =>
    intro p m hs hne
    have h0 : (mem p).profile ≠ FF_PROFILE_UNKNOWN := by
      simpa using hne 0 (Nat.succ_pos k)
    have hstep :
        ProfileIter.next ⟨id, mem, p⟩ =
          (some (id, (mem p).profile), ⟨id, mem, p + 1⟩) := by
      simp [ProfileIter.next, Profile.fromPair, h0]
    have hs1 : (mem (p + 1 + k)).profile = FF_PROFILE_UNKNOWN := by
      have e : p + 1 + k = p + (k + 1) := by omega
      rw [e]
      exact hs
    have hne1 :
        ∀ i, i < k → (mem (p + 1 + i)).profile ≠ FF_PROFILE_UNKNOWN := by
      intro i hi
      have e : p + 1 + i = p + (i + 1) := by omega
      rw [e]
      exact hne (i + 1) (by omega)
    have hrec := ih (p + 1) m hs1 hne1
    have hcoll :
        ProfileIter.collect ⟨id, mem, p⟩ (k + 1 + m) =
          some (id, (mem p).profile) ::
            ProfileIter.collect ⟨id, mem, p + 1⟩ (k + m) := by
      have e : k + 1 + m = (k + m) + 1 := by omega
      rw [e]
      simp [ProfileIter.collect, hstep]
    have e2 : (fun i => some (id, (mem (p + i)).profile)) ∘ Nat.succ
        = fun i => some (id, (mem (p + 1 + i)).profile) := by
      funext i
      simp only [Function.comp]
      have e : p + Nat.succ i = p + 1 + i := by omega
      rw [e]
    rw [hcoll, hrec, List.range_succ_eq_map, List.map_cons, List.map_map,
      e2, List.cons_append]
    simp

/-- The example profile array `[(H264,66),(H264,77),(H264,UNKNOWN)]` of
the spec, as index-to-record memory. -/
def exampleProfiles : Nat → AVProfile := fun i =>
  if i = 0 then ⟨66⟩ else if i = 1 then ⟨77⟩ else ⟨FF_PROFILE_UNKNOWN⟩

/-- C4: a profile iterator constructed over an array terminated by the
`FF_PROFILE_UNKNOWN` sentinel yields exactly the entries preceding the
sentinel, in array order, and every call after the sentinel has been
observed yields `none` (exhaustion is permanent); in particular the array
`[(H264,66),(H264,77),(H264,UNKNOWN)]` yields exactly `(H264,66)` then
`(H264,77)`. -/
theorem c4_profile_iter :
    (∀ (id : CodecId) (mem : Nat → AVProfile) (k m : Nat),
      (mem k).profile = FF_PROFILE_UNKNOWN →
      (∀ i, i < k → (mem i).profile ≠ FF_PROFILE_UNKNOWN) →
      (ProfileIter.new id mem).collect (k + m) =
        ((List.range k).map (fun i => some (id, (mem i).profile))) ++
          List.replicate m none) ∧
    (ProfileIter.new CodecId.H264 exampleProfiles).collect 4 =
      [some (CodecId.H264, 66), some (CodecId.H264, 77), none, none] := by
  constructor
  · intro id mem k m hs hne
    have h :=
      ProfileIter.collect_entries id mem k 0 m (by simpa using hs)
        (by simpa using hne)
    simpa [ProfileIter.new] using h
  · decide

/-- Witness for C4: the general statement applied to the example array,
whose sentinel sits at index 2. -/
theorem c4_profile_iter_witness :
    (ProfileIter.new CodecId.H264 exampleProfiles).collect (2 + 2) =
      ((List.range 2).map
        (fun i => some (CodecId.H264, (exampleProfiles i).profile))) ++
        List.replicate 2 none := by
  apply c4_profile_iter.1 CodecId.H264 exampleProfiles 2 2
  · decide
  · intro i hi
    interval_cases i <;> decide

/-! ## C5: medium narrowing on codecs -/

/-- C5: `Codec::video` fails with `InvalidData` exactly when the medium
is not video, succeeds exactly when it is — returning the `Video` view
wrapping the same codec — and symmetrically for `Codec::audio`. -/
theorem c5_narrowing (h : CodecHeap) (c : Codec) :
    (Codec.video h c = Except.error Error.InvalidData ↔
      Codec.medium h c ≠ MediaType.Video) ∧
    (Codec.medium h c = MediaType.Video →
      Codec.video h c = Except.ok (Video.new c)) ∧
    (Video.new c).codec = c ∧
    (Codec.audio h c = Except.error Error.InvalidData ↔
      Codec.medium h c ≠ MediaType.Audio) ∧
    (Codec.medium h c = MediaType.Audio →
      Codec.audio h c = Except.ok (Audio.new c)) ∧
    (Audio.new c).codec = c := by
  refine ⟨?_, ?_, rfl, ?_, ?_, rfl⟩
  · by_cases hv : Codec.medium h c = MediaType.Video <;>
      simp [Codec.video, hv]
  · intro hv
    simp [Codec.video, hv]
  · by_cases ha : Codec.medium h c = MediaType.Audio <;>
      simp [Codec.audio, ha]
  · intro ha
    simp [Codec.audio, ha]

/-- A heap whose codec records carry the video medium. -/
def videoHeap : CodecHeap := fun _ => ⟨none, .AVMEDIA_TYPE_VIDEO⟩

/-- A heap whose codec records carry the audio medium. -/
def audioHeap : CodecHeap := fun _ => ⟨none, .AVMEDIA_TYPE_AUDIO_⟩

/-- Witness for C5 on a video-medium and an audio-medium codec. -/
theorem c5_narrowing_witness :
    Codec.video videoHeap ⟨0⟩ = Except.ok (Video.new ⟨0⟩) ∧
    Codec.audio audioHeap ⟨0⟩ = Except.ok (Audio.new ⟨0⟩) :=
  ⟨(c5_narrowing videoHeap ⟨0⟩).2.1 rfl,
   (c5_narrowing audioHeap ⟨0⟩).2.2.2.2.1 rfl⟩

/-! ## C6: delimiter split of extensions and mime types -/

/-- Joining segments back with commas, the inverse of `splitComma`. -/
def joinComma : List (List Char) → List Char
  | [] => []
  | [p] => p
  | p :: ps => p ++ ',' :: joinComma ps

/-- `splitComma` always yields at least one segment. -/
theorem splitComma_ne_nil (s : List Char) : splitComma s ≠ [] := by
  induction s with
  | nil => simp [splitComma]
  | cons c rest ih =>
    by_cases hc : c = ','
    · simp [splitComma, hc]
    · cases hr : splitComma rest with
      | nil => exact absurd hr ih
      | cons p ps => simp [splitComma, hc, hr]

/-- No segment produced by `splitComma` contains a comma. -/
theorem splitComma_no_comma (s : List Char) :
    ∀ p ∈ splitComma s, ',' ∉ p := by
  induction s with
  | nil =>
    intro p hp
    simp [splitComma] at hp
    simp [hp]
  | cons c rest ih =>
    intro p hp
    by_cases hc : c = ','
    · rw [splitComma, if_pos hc] at hp
      rcases List.mem_cons.mp hp with h | h
      · simp [h]
      · exact ih p h
    · rw [splitComma, if_neg hc] at hp
      cases hr : splitComma rest with
      | nil => exact absurd hr (splitComma_ne_nil rest)
      | cons q qs =>
        rw [hr] at hp
        rcases List.mem_cons.mp hp with h | h
        · subst h
          intro hmem
          rcases List.mem_cons.mp hmem with h | h
          · exact hc h.symm
          · have hq : q ∈ splitComma rest := by
              rw [hr]
              exact List.mem_cons_self q qs
            exact ih q hq h
        · have hpmem : p ∈ splitComma rest := by
            rw [hr]
            exact List.mem_cons_of_mem q h
          exact ih p hpmem

/-- `joinComma` reverses `splitComma`: the segments are exactly the
comma-separated substrings, in order. -/
theorem joinComma_splitComma (s : List Char) :
    joinComma (splitComma s) = s := by
  induction s with
  | nil => rfl
  | cons c rest ih =>
    by_cases hc : c = ','
    · cases hr : splitComma rest with
      | nil => exact absurd hr (splitComma_ne_nil rest)
      | cons q qs =>
        rw [splitComma, if_pos hc]
        rw [hr] at ih ⊢
        subst hc
        simpa [joinComma] using ih
    · cases hr : splitComma rest with
      | nil => exact absurd hr (splitComma_ne_nil rest)
      | cons q qs =>
        rw [splitComma, if_neg hc, hr]
        rw [hr] at ih
        cases qs with
        | nil => simpa [joinComma] using ih
        | cons q2 qs2 => simpa [joinComma] using ih

/-- The example heap holding the native extensions string
`"mp4,m4a,m4v"`. -/
def exampleFormatHeap : FormatHeap := fun _ =>
  ⟨none, some ("mp4,m4a,m4v".toList), none⟩

/-- A heap whose format records have null string pointers throughout. -/
def nullFormatHeap : FormatHeap := fun _ => ⟨none, none, none⟩

/-- C6: over a non-null native string, `Input::extensions` and
`Input::mime_types` split on the comma delimiter into exactly the
comma-separated substrings in order (the segments are comma-free and
rejoin to the original string); over a null pointer both return the empty
vector, never `[""]`; in particular `"mp4,m4a,m4v"` yields exactly
`["mp4","m4a","m4v"]`. -/
theorem c6_delimiter_split :
    (∀ (h : FormatHeap) (f : Input) (s : List Char),
      (h f.ptr).extensions = some s → Input.extensions h f = splitComma s) ∧
    (∀ (h : FormatHeap) (f : Input),
      (h f.ptr).extensions = none → Input.extensions h f = []) ∧
    (∀ (h : FormatHeap) (f : Input) (s : List Char),
      (h f.ptr).mime_type = some s → Input.mime_types h f = splitComma s) ∧
    (∀ (h : FormatHeap) (f : Input),
      (h f.ptr).mime_type = none → Input.mime_types h f = []) ∧
    (∀ s : List Char, joinComma (splitComma s) = s) ∧
    (∀ s : List Char, ∀ p ∈ splitComma s, ',' ∉ p) ∧
    Input.extensions exampleFormatHeap ⟨0⟩ =
      ["mp4".toList, "m4a".toList, "m4v".toList] := by
  refine ⟨?_, ?_, ?_, ?_, joinComma_splitComma, splitComma_no_comma, ?_⟩
  · intro h f s hs
    simp [Input.extensions, hs]
  · intro h f hs
    simp [Input.extensions, hs]
  · intro h f s hs
    simp [Input.mime_types, hs]
  · intro h f hs
    simp [Input.mime_types, hs]
  · decide

/-- Witness for C6: null pointers give the empty vector, and the example
string splits as stated. -/
theorem c6_delimiter_split_witness :
    Input.extensions nullFormatHeap ⟨0⟩ = [] ∧
    Input.mime_types nullFormatHeap ⟨0⟩ = [] ∧
    Input.extensions exampleFormatHeap ⟨0⟩ =
      splitComma ("mp4,m4a,m4v".toList) :=
  ⟨c6_delimiter_split.2.1 nullFormatHeap ⟨0⟩ rfl,
   c6_delimiter_split.2.2.2.1 nullFormatHeap ⟨0⟩ rfl,
   c6_delimiter_split.1 exampleFormatHeap ⟨0⟩ _ rfl⟩

/-! ## C7: name normalization on the fallback variant -/

/-- C7: in every enum domain that defines a `name()` accessor over a
fallback variant — color primaries, color space, color range, transfer
characteristic — `name()` returns `None` on the `Unspecified` variant,
regardless of what the underlying native name lookup would return. -/
theorem c7_name_unspecified :
    ∀ (lp : AVColorPrimaries → Option String)
      (ls : AVColorSpace → Option String)
      (lr : AVColorRange → Option String)
      (lt : AVColorTransferCharacteristic → Option String),
      Primaries.name lp Primaries.Unspecified = none ∧
      Space.name ls Space.Unspecified = none ∧
      Range.name lr Range.Unspecified = none ∧
      TransferCharacteristic.name lt TransferCharacteristic.Unspecified =
        none := by
  intro lp ls lr lt
  refine ⟨rfl, rfl, rfl, rfl⟩

/-! ## C8: discriminant dispatch of subtitle rects -/

/-- An example rect heap whose records carry the bitmap discriminant. -/
def exampleRectHeap : RectHeap := fun _ => ⟨.SUBTITLE_BITMAP, 0⟩

/-- C8: `Rect::wrap` reads the discriminant, maps it through the enum
bridge, and constructs exactly the sub-view variant corresponding to the
bridged discriminant, with the constructed value holding the pointer that
was passed in: `Rect::wrap(p).as_ptr() == p` for every pointer and every
discriminant. -/
theorem c8_rect_dispatch :
    (∀ (h : RectHeap) (p : Ptr), (Rect.wrap h p).as_ptr = p) ∧
    (∀ (h : RectHeap) (p : Ptr),
      ((h p).type_ = AVSubtitleType.SUBTITLE_NONE →
        Rect.wrap h p = Rect.None p) ∧
      ((h p).type_ = AVSubtitleType.SUBTITLE_BITMAP →
        Rect.wrap h p = Rect.Bitmap (Bitmap.wrap p)) ∧
      ((h p).type_ = AVSubtitleType.SUBTITLE_TEXT →
        Rect.wrap h p = Rect.Text (Text.wrap p)) ∧
      ((h p).type_ = AVSubtitleType.SUBTITLE_ASS →
        Rect.wrap h p = Rect.Ass (Ass.wrap p))) := by
  constructor
  · intro h p
    rw [Rect.wrap]
    cases ht : (h p).type_ <;>
      simp [SubtitleType.fromNative, Rect.as_ptr, Bitmap.wrap,
        Bitmap.as_ptr, Text.wrap, Text.as_ptr, Ass.wrap, Ass.as_ptr]
  · intro h p
    refine ⟨?_, ?_, ?_, ?_⟩ <;> intro ht <;>
      rw [Rect.wrap, ht] <;> rfl

/-- Witness for C8 on a bitmap-discriminant rect. -/
theorem c8_rect_dispatch_witness :
    (exampleRectHeap 0).type_ = AVSubtitleType.SUBTITLE_BITMAP ∧
    Rect.wrap exampleRectHeap 0 = Rect.Bitmap (Bitmap.wrap 0) :=
  ⟨rfl, (c8_rect_dispatch.2 exampleRectHeap 0).2.1 rfl⟩

/-! ## C9: byte-accurate side-data slicing -/

/-- C9: a packet or frame side-data `data()` accessor returns a byte
slice whose length is exactly the native `size` field and whose `i`-th
byte is the byte at `data + i`, independent of any larger backing
allocation. -/
theorem c9_sidedata_bytes :
    (∀ (h : PacketSideHeap) (mem : ByteMem) (sd : PacketSideData),
      (PacketSideData.data h mem sd).length = (h sd.ptr).size ∧
      ∀ i : Nat, (PacketSideData.data h mem sd).get? i =
        if i < (h sd.ptr).size then some (mem ((h sd.ptr).dataPtr + i))
        else none) ∧
    (∀ (h : FrameSideHeap) (mem : ByteMem) (sd : FrameSideData),
      (FrameSideData.data h mem sd).length = (h sd.ptr).size ∧
      ∀ i : Nat, (FrameSideData.data h mem sd).get? i =
        if i < (h sd.ptr).size then some (mem ((h sd.ptr).dataPtr + i))
        else none) := by
  constructor
  · intro h mem sd
    constructor
    · simp [PacketSideData.data]
    · intro i
      by_cases hi : i < (h sd.ptr).size
      · simp [PacketSideData.data, List.get?_map, List.get?_range, hi]
      · have hlen : (h sd.ptr).size ≤ i := Nat.le_of_not_lt hi
        simp [PacketSideData.data, List.get?_map, hi]
        exact hlen
  · intro h mem sd
    constructor
    · simp [FrameSideData.data]
    · intro i
      by_cases hi : i < (h sd.ptr).size
      · simp [FrameSideData.data, List.get?_map, List.get?_range, hi]
      · have hlen : (h sd.ptr).size ≤ i := Nat.le_of_not_lt hi
        simp [FrameSideData.data, List.get?_map, hi]
        exact hlen

/-! ## C10: null tolerance of `Codec::description` -/

/-- A heap whose codec records have a null `long_name`. -/
def nullCodecHeap : CodecHeap := fun _ => ⟨none, .AVMEDIA_TYPE_VIDEO⟩

/-- C10: `Codec::description` returns the empty string on a null native
`long_name` and the string's contents on a non-null one, while
`Input::description` performs no null check — on a null `long_name` its
read has no defined result. -/
theorem c10_description_null :
    (∀ (h : CodecHeap) (c : Codec),
      (h c.ptr).long_name = none → Codec.description h c = []) ∧
    (∀ (h : CodecHeap) (c : Codec) (s : List Char),
      (h c.ptr).long_name = some s → Codec.description h c = s) ∧
    (∀ (h : FormatHeap) (f : Input),
      (h f.ptr).long_name = none → Input.description h f = none) ∧
    (∀ (h : FormatHeap) (f : Input) (s : List Char),
      (h f.ptr).long_name = some s → Input.description h f = some s) := by
  refine ⟨?_, ?_, ?_, ?_⟩
  · intro h c hs
    simp [Codec.description, hs]
  · intro h c s hs
    simp [Codec.description, hs]
  · intro h f hs
    simp [Input.description, hs]
  · intro h f s hs
    simp [Input.description, hs]

/-- Witness for C10 on null-`long_name` records. -/
theorem c10_description_null_witness :
    Codec.description nullCodecHeap ⟨0⟩ = [] ∧
    Input.description nullFormatHeap ⟨0⟩ = none :=
  ⟨c10_description_null.1 nullCodecHeap ⟨0⟩ rfl,
   c10_description_null.2.2.1 nullFormatHeap ⟨0⟩ rfl⟩
